import Mathlib

/-! # Register numbering and native register transfer

A shallow embedding of two GDB source files:

* `gdb/riscv-tdep.h`: the anonymous enum that numbers the RISC-V registers;
* `gdb/x86-64-linux-nat.c`: transfer of registers between GDB's register
  array and a traced GNU/Linux x86-64 thread through `ptrace`, and the
  word-granularity access to the debug registers.

Enumerators are natural numbers, written as the enum writes them: an
enumerator without an initialiser is its predecessor plus one.  The native
code is embedded as state-passing functions over a `World` that holds
GDB's globals, the traced threads as the kernel sees them, and the log of
the `ptrace` requests issued.
-/

/-! ## gdb/riscv-tdep.h -/

namespace RiscvTdep

def RISCV_ZERO_REGNUM : Nat := 0
def RISCV_RA_REGNUM : Nat := 1
def RISCV_SP_REGNUM : Nat := 2
def RISCV_GP_REGNUM : Nat := 3
def RISCV_TP_REGNUM : Nat := 4
def RISCV_T0_REGNUM : Nat := RISCV_TP_REGNUM + 1
def RISCV_T1_REGNUM : Nat := RISCV_T0_REGNUM + 1
def RISCV_T2_REGNUM : Nat := RISCV_T1_REGNUM + 1
def RISCV_FP_REGNUM : Nat := 8
def RISCV_S1_REGNUM : Nat := RISCV_FP_REGNUM + 1
def RISCV_A0_REGNUM : Nat := 10
def RISCV_A1_REGNUM : Nat := 11
def RISCV_A2_REGNUM : Nat := RISCV_A1_REGNUM + 1
def RISCV_A3_REGNUM : Nat := RISCV_A2_REGNUM + 1
def RISCV_A4_REGNUM : Nat := RISCV_A3_REGNUM + 1
def RISCV_A5_REGNUM : Nat := RISCV_A4_REGNUM + 1
def RISCV_A6_REGNUM : Nat := RISCV_A5_REGNUM + 1
def RISCV_A7_REGNUM : Nat := RISCV_A6_REGNUM + 1
def RISCV_S2_REGNUM : Nat := RISCV_A7_REGNUM + 1
def RISCV_S3_REGNUM : Nat := RISCV_S2_REGNUM + 1
def RISCV_S4_REGNUM : Nat := RISCV_S3_REGNUM + 1
def RISCV_S5_REGNUM : Nat := RISCV_S4_REGNUM + 1
def RISCV_S6_REGNUM : Nat := RISCV_S5_REGNUM + 1
def RISCV_S7_REGNUM : Nat := RISCV_S6_REGNUM + 1
def RISCV_S8_REGNUM : Nat := RISCV_S7_REGNUM + 1
def RISCV_S9_REGNUM : Nat := RISCV_S8_REGNUM + 1
def RISCV_S10_REGNUM : Nat := RISCV_S9_REGNUM + 1
def RISCV_S11_REGNUM : Nat := RISCV_S10_REGNUM + 1
def RISCV_T3_REGNUM : Nat := RISCV_S11_REGNUM + 1
def RISCV_T4_REGNUM : Nat := RISCV_T3_REGNUM + 1
def RISCV_T5_REGNUM : Nat := RISCV_T4_REGNUM + 1
def RISCV_T6_REGNUM : Nat := RISCV_T5_REGNUM + 1
def RISCV_PC_REGNUM : Nat := 32

def RISCV_FIRST_FP_REGNUM : Nat := 33
def RISCV_FT0_REGNUM : Nat := 33
def RISCV_FT1_REGNUM : Nat := RISCV_FT0_REGNUM + 1
def RISCV_FT2_REGNUM : Nat := RISCV_FT1_REGNUM + 1
def RISCV_FT3_REGNUM : Nat := RISCV_FT2_REGNUM + 1
def RISCV_FT4_REGNUM : Nat := RISCV_FT3_REGNUM + 1
def RISCV_FT5_REGNUM : Nat := RISCV_FT4_REGNUM + 1
def RISCV_FT6_REGNUM : Nat := RISCV_FT5_REGNUM + 1
def RISCV_FT7_REGNUM : Nat := RISCV_FT6_REGNUM + 1
def RISCV_FS0_REGNUM : Nat := RISCV_FT7_REGNUM + 1
def RISCV_FS1_REGNUM : Nat := RISCV_FS0_REGNUM + 1
def RISCV_FA0_REGNUM : Nat := RISCV_FS1_REGNUM + 1
def RISCV_FA1_REGNUM : Nat := RISCV_FA0_REGNUM + 1
def RISCV_FA2_REGNUM : Nat := RISCV_FA1_REGNUM + 1
def RISCV_FA3_REGNUM : Nat := RISCV_FA2_REGNUM + 1
def RISCV_FA4_REGNUM : Nat := RISCV_FA3_REGNUM + 1
def RISCV_FA5_REGNUM : Nat := RISCV_FA4_REGNUM + 1
def RISCV_FA6_REGNUM : Nat := RISCV_FA5_REGNUM + 1
def RISCV_FA7_REGNUM : Nat := RISCV_FA6_REGNUM + 1
def RISCV_FS2_REGNUM : Nat := RISCV_FA7_REGNUM + 1
def RISCV_FS3_REGNUM : Nat := RISCV_FS2_REGNUM + 1
def RISCV_FS4_REGNUM : Nat := RISCV_FS3_REGNUM + 1
def RISCV_FS5_REGNUM : Nat := RISCV_FS4_REGNUM + 1
def RISCV_FS6_REGNUM : Nat := RISCV_FS5_REGNUM + 1
def RISCV_FS7_REGNUM : Nat := RISCV_FS6_REGNUM + 1
def RISCV_FS8_REGNUM : Nat := RISCV_FS7_REGNUM + 1
def RISCV_FS9_REGNUM : Nat := RISCV_FS8_REGNUM + 1
def RISCV_FS10_REGNUM : Nat := RISCV_FS9_REGNUM + 1
def RISCV_FS11_REGNUM : Nat := RISCV_FS10_REGNUM + 1
def RISCV_FT8_REGNUM : Nat := RISCV_FS11_REGNUM + 1
def RISCV_FT9_REGNUM : Nat := RISCV_FT8_REGNUM + 1
def RISCV_FT10_REGNUM : Nat := RISCV_FT9_REGNUM + 1
def RISCV_FT11_REGNUM : Nat := RISCV_FT10_REGNUM + 1
def RISCV_LAST_FP_REGNUM : Nat := 64

def RISCV_FIRST_CSR_REGNUM : Nat := 65

/-- The enumerator value that `DECLARE_CSR (name, num)` generates for the
CSR whose hardware number is `num`:
`RISCV_ ## num ## _REGNUM = RISCV_LAST_FP_REGNUM + 1 + num`. -/
def DECLARE_CSR (num : Nat) : Nat := RISCV_LAST_FP_REGNUM + 1 + num

/-- The enumerator values produced by including `opcode/riscv-opc.h` under
`DECLARE_CSR`.  That header is not part of the embedded sources, so the
hardware numbers it lists, in its order, are the argument `opc`. -/
def csr_enumerators (opc : List Nat) : List Nat := opc.map DECLARE_CSR

def RISCV_LAST_CSR_REGNUM : Nat := 4160
def RISCV_CSR_LEGACY_MISA_REGNUM : Nat := 0xf10

def RISCV_PRIV_REGNUM : Nat := 4161

def RISCV_LAST_REGNUM : Nat := RISCV_PRIV_REGNUM
def RISCV_NUM_REGS : Nat := RISCV_LAST_REGNUM + 1

/-- The thirty-two general-purpose enumerators, in declaration order. -/
def gp_enumerators : List Nat :=
  [RISCV_ZERO_REGNUM, RISCV_RA_REGNUM, RISCV_SP_REGNUM, RISCV_GP_REGNUM,
   RISCV_TP_REGNUM, RISCV_T0_REGNUM, RISCV_T1_REGNUM, RISCV_T2_REGNUM,
   RISCV_FP_REGNUM, RISCV_S1_REGNUM, RISCV_A0_REGNUM, RISCV_A1_REGNUM,
   RISCV_A2_REGNUM, RISCV_A3_REGNUM, RISCV_A4_REGNUM, RISCV_A5_REGNUM,
   RISCV_A6_REGNUM, RISCV_A7_REGNUM, RISCV_S2_REGNUM, RISCV_S3_REGNUM,
   RISCV_S4_REGNUM, RISCV_S5_REGNUM, RISCV_S6_REGNUM, RISCV_S7_REGNUM,
   RISCV_S8_REGNUM, RISCV_S9_REGNUM, RISCV_S10_REGNUM, RISCV_S11_REGNUM,
   RISCV_T3_REGNUM, RISCV_T4_REGNUM, RISCV_T5_REGNUM, RISCV_T6_REGNUM]

/-- The thirty-two floating-point enumerators, in declaration order. -/
def fp_enumerators : List Nat :=
  [RISCV_FT0_REGNUM, RISCV_FT1_REGNUM, RISCV_FT2_REGNUM, RISCV_FT3_REGNUM,
   RISCV_FT4_REGNUM, RISCV_FT5_REGNUM, RISCV_FT6_REGNUM, RISCV_FT7_REGNUM,
   RISCV_FS0_REGNUM, RISCV_FS1_REGNUM, RISCV_FA0_REGNUM, RISCV_FA1_REGNUM,
   RISCV_FA2_REGNUM, RISCV_FA3_REGNUM, RISCV_FA4_REGNUM, RISCV_FA5_REGNUM,
   RISCV_FA6_REGNUM, RISCV_FA7_REGNUM, RISCV_FS2_REGNUM, RISCV_FS3_REGNUM,
   RISCV_FS4_REGNUM, RISCV_FS5_REGNUM, RISCV_FS6_REGNUM, RISCV_FS7_REGNUM,
   RISCV_FS8_REGNUM, RISCV_FS9_REGNUM, RISCV_FS10_REGNUM, RISCV_FS11_REGNUM,
   RISCV_FT8_REGNUM, RISCV_FT9_REGNUM, RISCV_FT10_REGNUM, RISCV_FT11_REGNUM]

/-- Every register enumerator of the enum, in declaration order, for the
CSR hardware numbers `opc` that `opcode/riscv-opc.h` declares. -/
def register_enumerators (opc : List Nat) : List Nat :=
  gp_enumerators ++ [RISCV_PC_REGNUM] ++ fp_enumerators
    ++ csr_enumerators opc ++ [RISCV_PRIV_REGNUM]

/-- The register categories, in the order the enum lays them out. -/
inductive Category
  | gp | pc | fp | csr | priv
  deriving DecidableEq, Repr

/-- First enumerator value of a category. -/
def Category.first : Category → Nat
  | .gp => RISCV_ZERO_REGNUM
  | .pc => RISCV_PC_REGNUM
  | .fp => RISCV_FIRST_FP_REGNUM
  | .csr => RISCV_FIRST_CSR_REGNUM
  | .priv => RISCV_PRIV_REGNUM

/-- Last enumerator value of a category. -/
def Category.last : Category → Nat
  | .gp => RISCV_T6_REGNUM
  | .pc => RISCV_PC_REGNUM
  | .fp => RISCV_LAST_FP_REGNUM
  | .csr => RISCV_LAST_CSR_REGNUM
  | .priv => RISCV_PRIV_REGNUM

/-- Membership of a register number in a category's range. -/
def Category.contains (c : Category) (regnum : Nat) : Prop :=
  c.first ≤ regnum ∧ regnum ≤ c.last

instance (c : Category) (regnum : Nat) : Decidable (c.contains regnum) := by
  unfold Category.contains
  infer_instance

end RiscvTdep

/-! ## gdb/x86-64-linux-nat.c -/

namespace X86_64LinuxNat

/-- The `struct user` register names of `<sys/reg.h>` that `regmap`
mentions. -/
inductive UserReg
  | RAX | RBX | RCX | RDX
  | RSI | RDI | RBP | RSP
  | R8 | R9 | R10 | R11
  | R12 | R13 | R14 | R15
  | RIP | EFLAGS | CS | SS
  | DS | ES | FS | GS
  deriving DecidableEq, Repr

/-- An `elf_gregset_t`, read as the code reads it: an array of `elf_greg_t`
words indexed by word position. -/
abbrev GregSet := Nat → Nat

/-- An `elf_fpregset_t`, an FXSAVE area indexed by position. -/
abbrev FpRegSet := Nat → Nat

/-- GDB's register array: the raw value held for each register number. -/
abbrev RegCache := Nat → Nat

/-- The constants and helpers that `x86-64-linux-nat.c` takes from headers
and files outside the embedded sources.  The code is embedded for an
arbitrary choice of them. -/
structure Target where
  /-- `<sys/reg.h>`: the word position of each named register in the
  general-register block. -/
  user_reg : UserReg → Nat
  /-- `x86-64-tdep.h`: the number of general-purpose registers. -/
  X86_64_NUM_GREGS : Nat
  /-- First floating-point register number. -/
  FP0_REGNUM : Int
  /-- Register number of `mxcsr`, the last one `PTRACE_GETFPREGS` supplies. -/
  MXCSR_REGNUM : Int
  /-- `<sys/debugreg.h>`: index of the first address debug register. -/
  DR_FIRSTADDR : Int
  /-- `<sys/debugreg.h>`: index of the last address debug register. -/
  DR_LASTADDR : Int
  /-- `<sys/debugreg.h>`: index of the debug status register. -/
  DR_STATUS : Int
  /-- `<sys/debugreg.h>`: index of the debug control register. -/
  DR_CONTROL : Int
  /-- `x86-64-tdep.c`: unpack an FXSAVE area into the register array. -/
  x86_64_supply_fxsave : FpRegSet → RegCache → RegCache
  /-- `x86-64-tdep.c`: pack register `regnum` (all when -1) from the
  register array into an FXSAVE area. -/
  x86_64_fill_fxsave : RegCache → FpRegSet → Int → FpRegSet

/-- The values the constants have on x86-64 GNU/Linux (`<sys/reg.h>`,
`<sys/debugreg.h>`, and GDB's register numbering with `st0` at 24 and
`mxcsr` at 56).  The two FXSAVE helpers are a stand-in that keeps one word
per floating-point register, register `24 + pos` at position `pos`. -/
def linux : Target where
  user_reg
    | .R15 => 0 | .R14 => 1 | .R13 => 2 | .R12 => 3
    | .RBP => 4 | .RBX => 5 | .R11 => 6 | .R10 => 7
    | .R9 => 8 | .R8 => 9 | .RAX => 10 | .RCX => 11
    | .RDX => 12 | .RSI => 13 | .RDI => 14 | .RIP => 16
    | .CS => 17 | .EFLAGS => 18 | .RSP => 19 | .SS => 20
    | .DS => 23 | .ES => 24 | .FS => 25 | .GS => 26
  X86_64_NUM_GREGS := 24
  FP0_REGNUM := 24
  MXCSR_REGNUM := 56
  DR_FIRSTADDR := 0
  DR_LASTADDR := 3
  DR_STATUS := 6
  DR_CONTROL := 7
  x86_64_supply_fxsave := fun fxsave registers regnum =>
    if 24 ≤ regnum ∧ regnum ≤ 56 then fxsave (regnum - 24) else registers regnum
  x86_64_fill_fxsave := fun registers fxsave regnum pos =>
    if 24 ≤ pos + 24 ∧ pos + 24 ≤ 56 ∧ (regnum = -1 ∨ regnum = ((pos + 24 : Nat) : Int))
    then registers (pos + 24) else fxsave pos

/-- Mapping between the general-purpose registers in `struct user` format
and GDB's register array layout: entry `i` names the `struct user` slot of
GDB register `i`. -/
def regmap : List UserReg :=
  [ .RAX, .RBX, .RCX, .RDX,
    .RSI, .RDI, .RBP, .RSP,
    .R8, .R9, .R10, .R11,
    .R12, .R13, .R14, .R15,
    .RIP, .EFLAGS, .CS, .SS,
    .DS, .ES, .FS, .GS ]

/-- The C expression `regmap[i]`.  An index past the end of the table (not
defined in C) reads as position 0. -/
def regmap_at (T : Target) (i : Nat) : Nat :=
  (regmap.map T.user_reg).getD i 0

/-- Which ptrace request retrieves which registers: `GETREGS_SUPPLIES`. -/
def GETREGS_SUPPLIES (T : Target) (regno : Int) : Bool :=
  decide (0 ≤ regno) && decide (regno < (T.X86_64_NUM_GREGS : Int))

/-- Which ptrace request retrieves which registers: `GETFPREGS_SUPPLIES`. -/
def GETFPREGS_SUPPLIES (T : Target) (regno : Int) : Bool :=
  decide (T.FP0_REGNUM ≤ regno) && decide (regno ≤ T.MXCSR_REGNUM)

/-- Modelled from the spec: `supply_register` (regcache.c, not among the
embedded sources) copies the word found at a buffer location into the
logical slot `regnum` of the register array. -/
def supply_register (regnum : Nat) (val : Nat) (registers : RegCache) : RegCache :=
  fun r => if r = regnum then val else registers r

/-- Modelled from the spec: `regcache_collect` (regcache.c, not among the
embedded sources) overwrites the buffer word at position `pos` with the
register array's value of `regnum`. -/
def regcache_collect (registers : RegCache) (regnum : Nat) (pos : Nat)
    (regp : GregSet) : GregSet :=
  fun p => if p = pos then registers regnum else regp p

/-- Fill GDB's register array with the general-purpose register values in
`gregsetp`. -/
def supply_gregset (T : Target) (gregsetp : GregSet) (registers : RegCache) : RegCache :=
  (List.range T.X86_64_NUM_GREGS).foldl
    (fun regs i => supply_register i (gregsetp (regmap_at T i)) regs) registers

/-- Fill register `regno` (if it is a general-purpose register) in
`gregsetp` with the value in GDB's register array.  If `regno` is -1, do
this for all registers. -/
def fill_gregset (T : Target) (registers : RegCache) (gregsetp : GregSet)
    (regno : Int) : GregSet :=
  (List.range T.X86_64_NUM_GREGS).foldl
    (fun regp (i : Nat) =>
      if regno = -1 ∨ regno = (i : Int) then
        regcache_collect registers i (regmap_at T i) regp
      else regp)
    gregsetp

/-- Fill GDB's register array with the floating-point and SSE register
values in `fpregsetp`. -/
def supply_fpregset (T : Target) (fpregsetp : FpRegSet) (registers : RegCache) : RegCache :=
  T.x86_64_supply_fxsave fpregsetp registers

/-- Fill register `regnum` (if it is a floating-point or SSE register) in
`fpregsetp` with the value in GDB's register array. -/
def fill_fpregset (T : Target) (registers : RegCache) (fpregsetp : FpRegSet)
    (regnum : Int) : FpRegSet :=
  T.x86_64_fill_fxsave registers fpregsetp regnum

/-- Modelled from the spec: a `ptid_t` (defs.h, not among the embedded
sources) identifies the traced entity by a process id and an optional
thread id, 0 when there is no distinct thread. -/
structure Ptid where
  pid : Int
  tid : Int
  deriving DecidableEq, Repr

/-- Modelled from the spec: `PIDGET` yields the process id. -/
def PIDGET (ptid : Ptid) : Int := ptid.pid

/-- Modelled from the spec: `TIDGET` yields the thread id. -/
def TIDGET (ptid : Ptid) : Int := ptid.tid

/-- The ways the code leaves a function without returning. -/
inductive Failure
  | perror_with_name (string : String)
  | internal_error (string : String) (regno : Int)
  | gdb_assert (expr : String)
  deriving DecidableEq, Repr

/-- A `ptrace` request as issued, with the thread it addresses and the data
handed to the kernel. -/
inductive PtraceCall
  | PTRACE_GETREGS (tid : Int)
  | PTRACE_SETREGS (tid : Int) (regs : GregSet)
  | PTRACE_GETFPREGS (tid : Int)
  | PTRACE_SETFPREGS (tid : Int) (fpregs : FpRegSet)
  | PT_READ_U (tid : Int) (regnum : Int)
  | PT_WRITE_U (tid : Int) (regnum : Int) (value : Nat)

/-- The traced threads as the kernel holds them, by thread id. -/
structure Kernel where
  /-- General-register block of each thread. -/
  gregs : Int → GregSet
  /-- Floating-point block of each thread. -/
  fpregs : Int → FpRegSet
  /-- The `u_debugreg` array of each thread's `struct user`. -/
  u_debugreg : Int → Int → Nat

/-- Everything the native code reads or writes. -/
structure World where
  /-- GDB's global `inferior_ptid`. -/
  inferior_ptid : Ptid
  /-- GDB's register array. -/
  registers : RegCache
  /-- The traced threads. -/
  kernel : Kernel
  /-- Whether the `n`-th `ptrace` request issued (counting from 0) reports
  an error. -/
  fails : Nat → Bool
  /-- The `ptrace` requests issued so far, oldest first. -/
  calls : List PtraceCall

/-- A C function body: it runs on a world, and either returns a value or
leaves through a failure; the world it leaves behind is kept in both cases. -/
abbrev Run (α : Type) := World → Except Failure α × World

/-- Statement sequencing: `k` runs only if `m` returned. -/
def Run.seq {α : Type} (m : Run Unit) (k : Run α) : Run α := fun w =>
  match m w with
  | (.ok _, w1) => k w1
  | (.error e, w1) => (.error e, w1)

/-- Record a request in the log. -/
def World.issue (w : World) (c : PtraceCall) : World :=
  { w with calls := w.calls ++ [c] }

/-- Whether the request about to be issued reports an error. -/
def World.next_fails (w : World) : Bool := w.fails w.calls.length

/-- The request `ptrace (PTRACE_GETREGS, tid, 0, &regs)`: `none` when it
returns a negative value, else the thread's general-register block. -/
def ptrace_getregs (tid : Int) (w : World) : Option GregSet × World :=
  if w.next_fails then (none, w.issue (.PTRACE_GETREGS tid))
  else (some (w.kernel.gregs tid), w.issue (.PTRACE_GETREGS tid))

/-- The request `ptrace (PTRACE_SETREGS, tid, 0, &regs)`: `false` when it
returns a negative value; on success the thread's block becomes `regs`. -/
def ptrace_setregs (tid : Int) (regs : GregSet) (w : World) : Bool × World :=
  if w.next_fails then (false, w.issue (.PTRACE_SETREGS tid regs))
  else
    (true,
     { w.issue (.PTRACE_SETREGS tid regs) with
       kernel := { w.kernel with gregs := Function.update w.kernel.gregs tid regs } })

/-- The request `ptrace (PTRACE_GETFPREGS, tid, 0, &fpregs)`. -/
def ptrace_getfpregs (tid : Int) (w : World) : Option FpRegSet × World :=
  if w.next_fails then (none, w.issue (.PTRACE_GETFPREGS tid))
  else (some (w.kernel.fpregs tid), w.issue (.PTRACE_GETFPREGS tid))

/-- The request `ptrace (PTRACE_SETFPREGS, tid, 0, &fpregs)`. -/
def ptrace_setfpregs (tid : Int) (fpregs : FpRegSet) (w : World) : Bool × World :=
  if w.next_fails then (false, w.issue (.PTRACE_SETFPREGS tid fpregs))
  else
    (true,
     { w.issue (.PTRACE_SETFPREGS tid fpregs) with
       kernel := { w.kernel with fpregs := Function.update w.kernel.fpregs tid fpregs } })

/-- The request `ptrace (PT_READ_U, tid, offsetof (struct user,
u_debugreg[regnum]), 0)`: the word returned and whether `errno` is set
afterwards.  A failing request returns -1 as an `unsigned long`. -/
def ptrace_read_u (tid : Int) (regnum : Int) (w : World) : (Nat × Bool) × World :=
  if w.next_fails then ((2 ^ 64 - 1, true), w.issue (.PT_READ_U tid regnum))
  else ((w.kernel.u_debugreg tid regnum, false), w.issue (.PT_READ_U tid regnum))

/-- The request `ptrace (PT_WRITE_U, tid, offsetof (struct user,
u_debugreg[regnum]), value)`: whether `errno` is set afterwards; on
success the addressed word becomes `value`. -/
def ptrace_write_u (tid : Int) (regnum : Int) (value : Nat) (w : World) : Bool × World :=
  if w.next_fails then (true, w.issue (.PT_WRITE_U tid regnum value))
  else
    (false,
     { w.issue (.PT_WRITE_U tid regnum value) with
       kernel := { w.kernel with
         u_debugreg := Function.update w.kernel.u_debugreg tid
           (Function.update (w.kernel.u_debugreg tid) regnum value) } })

/-- Fetch all general-purpose registers from process/thread `tid` and
store their values in GDB's register array. -/
def fetch_regs (T : Target) (tid : Int) : Run Unit := fun w =>
  match ptrace_getregs tid w with
  | (none, w1) => (.error (.perror_with_name "Couldn't get registers"), w1)
  | (some regs, w1) =>
    (.ok (), { w1 with registers := supply_gregset T regs w1.registers })

/-- Store all valid general-purpose registers in GDB's register array into
the process/thread specified by `tid`. -/
def store_regs (T : Target) (tid : Int) (regno : Int) : Run Unit := fun w =>
  match ptrace_getregs tid w with
  | (none, w1) => (.error (.perror_with_name "Couldn't get registers"), w1)
  | (some regs, w1) =>
    match ptrace_setregs tid (fill_gregset T w1.registers regs regno) w1 with
    | (false, w2) => (.error (.perror_with_name "Couldn't write registers"), w2)
    | (true, w2) => (.ok (), w2)

/-- Fetch all floating-point registers from process/thread `tid` and store
their values in GDB's register array. -/
def fetch_fpregs (T : Target) (tid : Int) : Run Unit := fun w =>
  match ptrace_getfpregs tid w with
  | (none, w1) =>
    (.error (.perror_with_name "Couldn't get floating point status"), w1)
  | (some fpregs, w1) =>
    (.ok (), { w1 with registers := supply_fpregset T fpregs w1.registers })

/-- Store all valid floating-point registers in GDB's register array into
the process/thread specified by `tid`. -/
def store_fpregs (T : Target) (tid : Int) (regno : Int) : Run Unit := fun w =>
  match ptrace_getfpregs tid w with
  | (none, w1) =>
    (.error (.perror_with_name "Couldn't get floating point status"), w1)
  | (some fpregs, w1) =>
    match ptrace_setfpregs tid (fill_fpregset T w1.registers fpregs regno) w1 with
    | (false, w2) =>
      (.error (.perror_with_name "Couldn't write floating point status"), w2)
    | (true, w2) => (.ok (), w2)

/-- Fetch register `regno` from the child process.  If `regno` is -1, do
this for all registers (including the floating point and SSE registers). -/
def fetch_inferior_registers (T : Target) (regno : Int) : Run Unit := fun w =>
  let tid := TIDGET w.inferior_ptid
  let tid := if tid = 0 then PIDGET w.inferior_ptid else tid
  if regno = -1 then
    Run.seq (fetch_regs T tid) (fetch_fpregs T tid) w
  else if GETREGS_SUPPLIES T regno then
    fetch_regs T tid w
  else if GETFPREGS_SUPPLIES T regno then
    fetch_fpregs T tid w
  else
    (.error (.internal_error "Got request for bad register number %d." regno), w)

/-- Store register `regno` back into the child process.  If `regno` is -1,
do this for all registers (including the floating-point and SSE
registers). -/
def store_inferior_registers (T : Target) (regno : Int) : Run Unit := fun w =>
  let tid := TIDGET w.inferior_ptid
  let tid := if tid = 0 then PIDGET w.inferior_ptid else tid
  if regno = -1 then
    Run.seq (store_regs T tid regno) (store_fpregs T tid regno) w
  else if GETREGS_SUPPLIES T regno then
    store_regs T tid regno w
  else if GETFPREGS_SUPPLIES T regno then
    store_fpregs T tid regno w
  else
    (.error
      (.internal_error "Got request to store bad register number %d." regno), w)

/-- Read debug register `regnum` of the inferior process; zero if the
`ptrace` call fails. -/
def x86_64_linux_dr_get (regnum : Int) : Run Nat := fun w =>
  let tid := PIDGET w.inferior_ptid
  match ptrace_read_u tid regnum w with
  | ((_, true), w1) => (.ok 0, w1)
  | ((value, false), w1) => (.ok value, w1)

/-- Write `value` to debug register `regnum` of the inferior process. -/
def x86_64_linux_dr_set (regnum : Int) (value : Nat) : Run Unit := fun w =>
  let tid := PIDGET w.inferior_ptid
  match ptrace_write_u tid regnum value w with
  | (true, w1) => (.error (.perror_with_name "Couldn't write debug register"), w1)
  | (false, w1) => (.ok (), w1)

def x86_64_linux_dr_set_control (T : Target) (control : Nat) : Run Unit :=
  x86_64_linux_dr_set T.DR_CONTROL control

def x86_64_linux_dr_set_addr (T : Target) (regnum : Int) (addr : Nat) : Run Unit :=
  fun w =>
    if 0 ≤ regnum ∧ regnum ≤ T.DR_LASTADDR - T.DR_FIRSTADDR then
      x86_64_linux_dr_set (T.DR_FIRSTADDR + regnum) addr w
    else
      (.error
        (.gdb_assert "regnum >= 0 && regnum <= DR_LASTADDR - DR_FIRSTADDR"), w)

def x86_64_linux_dr_reset_addr (T : Target) (regnum : Int) : Run Unit :=
  fun w =>
    if 0 ≤ regnum ∧ regnum ≤ T.DR_LASTADDR - T.DR_FIRSTADDR then
      x86_64_linux_dr_set (T.DR_FIRSTADDR + regnum) 0 w
    else
      (.error
        (.gdb_assert "regnum >= 0 && regnum <= DR_LASTADDR - DR_FIRSTADDR"), w)

def x86_64_linux_dr_get_status (T : Target) : Run Nat :=
  x86_64_linux_dr_get T.DR_STATUS

/-! ### The operations as the specification words them -/

/-- The specification's fetch-all-GP followed by fetch-all-FP: run the
general-purpose fetch for `tid`; if it fails, that failure is the result
and nothing more is done; otherwise run the floating-point fetch for `tid`. -/
def spec_fetch_gp_then_fp (T : Target) (tid : Int) (w : World) :
    Except Failure Unit × World :=
  match fetch_regs T tid w with
  | (.error e, w1) => (.error e, w1)
  | (.ok _, w1) => fetch_fpregs T tid w1

/-- The specification's thread addressing: the thread id if there is a
distinct one, else the process id. -/
def spec_target_id (ptid : Ptid) : Int :=
  if ptid.tid ≠ 0 then ptid.tid else ptid.pid

/-- The specification's dispatch failure condition: `regno` is neither the
wildcard, nor in the general-purpose range, nor in the floating-point
range. -/
def bad_register_number (T : Target) (regno : Int) : Prop :=
  regno ≠ -1 ∧ ¬ (0 ≤ regno ∧ regno < (T.X86_64_NUM_GREGS : Int))
    ∧ ¬ (T.FP0_REGNUM ≤ regno ∧ regno ≤ T.MXCSR_REGNUM)

/-- The `ptrace` requests issued by a run that started in `w` and ended in
`w1`: those logged beyond the ones already in `w`. -/
def issued (w w1 : World) : List PtraceCall := w1.calls.drop w.calls.length

/-- A run that leaves only by returning or through `perror_with_name`, and
that returns when no request fails; it never changes the failure oracle
and only adds to the request log. -/
def Transfer (m : Run Unit) : Prop :=
  ∀ w : World,
    (∀ s n, (m w).1 ≠ .error (.internal_error s n))
    ∧ ((∀ n, w.fails n = false) → (m w).1 = .ok ())
    ∧ (m w).2.fails = w.fails

/-- The process or thread a `ptrace` request is addressed to: its second
argument. -/
def PtraceCall.target : PtraceCall → Int
  | .PTRACE_GETREGS tid => tid
  | .PTRACE_SETREGS tid _ => tid
  | .PTRACE_GETFPREGS tid => tid
  | .PTRACE_SETFPREGS tid _ => tid
  | .PT_READ_U tid _ => tid
  | .PT_WRITE_U tid _ _ => tid

/-- A run that issues at least one request, addresses every request it
issues to `tid`, and leaves `inferior_ptid` alone. -/
def Addresses (tid : Int) (m : Run Unit) : Prop :=
  ∀ w : World, ∃ cs : List PtraceCall,
    (m w).2.calls = w.calls ++ cs ∧ cs ≠ [] ∧ (∀ c ∈ cs, c.target = tid)
      ∧ (m w).2.inferior_ptid = w.inferior_ptid

/-- A world with an empty request log in which every request succeeds. -/
def sample_world (ptid : Ptid) (registers : RegCache) (gregs : GregSet) : World where
  inferior_ptid := ptid
  registers := registers
  kernel := {
    gregs := fun _ => gregs
    fpregs := fun _ _ => 0
    u_debugreg := fun _ _ => 0 }
  fails := fun _ => false
  calls := []

end X86_64LinuxNat

/-! ## Properties of the RISC-V register enum -/

namespace RiscvTdep

theorem gp_enumerators_eq : gp_enumerators = List.range 32 := by decide

theorem fp_enumerators_eq : fp_enumerators = List.range' 33 32 := by decide

theorem gp_pc_fp_eq :
    gp_enumerators ++ [RISCV_PC_REGNUM] ++ fp_enumerators = List.range 65 := by
  decide

theorem DECLARE_CSR_eq (num : Nat) : DECLARE_CSR num = 65 + num := by
  unfold DECLARE_CSR RISCV_LAST_FP_REGNUM
  omega

theorem DECLARE_CSR_injective : Function.Injective DECLARE_CSR := by
  intro a b h
  rw [DECLARE_CSR_eq, DECLARE_CSR_eq] at h
  omega

theorem mem_csr_enumerators {opc : List Nat} {r : Nat}
    (h : r ∈ csr_enumerators opc) : ∃ num ∈ opc, r = 65 + num := by
  unfold csr_enumerators at h
  obtain ⟨num, hmem, rfl⟩ := List.mem_map.mp h
  exact ⟨num, hmem, DECLARE_CSR_eq num⟩

theorem category_first_last (c : Category) :
    (c.first, c.last) =
      match c with
      | .gp => (0, 31)
      | .pc => (32, 32)
      | .fp => (33, 64)
      | .csr => (65, 4160)
      | .priv => (4161, 4161) := by
  cases c <;> rfl

theorem contains_iff (c : Category) (r : Nat) :
    c.contains r ↔
      match c with
      | .gp => r ≤ 31
      | .pc => r = 32
      | .fp => 33 ≤ r ∧ r ≤ 64
      | .csr => 65 ≤ r ∧ r ≤ 4160
      | .priv => r = 4161 := by
  have h := category_first_last c
  unfold Category.contains
  cases c <;> simp only [Prod.mk.injEq] at h <;> obtain ⟨h1, h2⟩ := h <;>
    rw [h1, h2] <;> omega

/-- C7: for every CSR hardware number `n` in 0..4095 the enumerator value
that `DECLARE_CSR` generates is `65 + n` and lies between
`RISCV_FIRST_CSR_REGNUM` = 65 and `RISCV_LAST_CSR_REGNUM` = 4160, and two
distinct hardware numbers in that range generate distinct values. -/
theorem csr_index_generation :
    (∀ n : Nat, n ≤ 4095 →
        DECLARE_CSR n = 65 + n
        ∧ RISCV_FIRST_CSR_REGNUM ≤ DECLARE_CSR n
        ∧ DECLARE_CSR n ≤ RISCV_LAST_CSR_REGNUM)
    ∧ RISCV_FIRST_CSR_REGNUM = 65
    ∧ RISCV_LAST_CSR_REGNUM = 4160
    ∧ (∀ n m : Nat, n ≤ 4095 → m ≤ 4095 → n ≠ m →
        DECLARE_CSR n ≠ DECLARE_CSR m) := by
  refine ⟨fun n hn => ?_, rfl, rfl, fun n m _ _ hne h => hne (DECLARE_CSR_injective h)⟩
  rw [DECLARE_CSR_eq]
  unfold RISCV_FIRST_CSR_REGNUM RISCV_LAST_CSR_REGNUM
  omega

/-- The CSR numbered 0xf10 gets 3921, and CSRs 0 and 4095 get the two ends
of the CSR range and differ. -/
theorem csr_index_generation_witness :
    DECLARE_CSR 0xf10 = 65 + 0xf10
    ∧ RISCV_FIRST_CSR_REGNUM ≤ DECLARE_CSR 0xf10
    ∧ DECLARE_CSR 0xf10 ≤ RISCV_LAST_CSR_REGNUM
    ∧ DECLARE_CSR 0 ≠ DECLARE_CSR 4095 :=
  ⟨(csr_index_generation.1 0xf10 (by decide)).1,
   (csr_index_generation.1 0xf10 (by decide)).2.1,
   (csr_index_generation.1 0xf10 (by decide)).2.2,
   csr_index_generation.2.2.2 0 4095 (by decide) (by decide) (by decide)⟩

/-- C8: the category ranges general-purpose [0, 31], program counter {32},
floating point [33, 64], CSR [65, 4160] and privilege {4161} each start one
past the end of the previous one, are pairwise disjoint, and cover exactly
the register numbers below `RISCV_NUM_REGS`, which is
`RISCV_LAST_REGNUM + 1` = 4162. -/
theorem register_namespace_partitioned :
    (RISCV_ZERO_REGNUM = 0 ∧ RISCV_T6_REGNUM = 31)
    ∧ RISCV_PC_REGNUM = 32
    ∧ (RISCV_FIRST_FP_REGNUM = 33 ∧ RISCV_LAST_FP_REGNUM = 64)
    ∧ (RISCV_FIRST_CSR_REGNUM = 65 ∧ RISCV_LAST_CSR_REGNUM = 4160)
    ∧ RISCV_PRIV_REGNUM = 4161
    ∧ (RISCV_PC_REGNUM = RISCV_T6_REGNUM + 1
        ∧ RISCV_FIRST_FP_REGNUM = RISCV_PC_REGNUM + 1
        ∧ RISCV_FIRST_CSR_REGNUM = RISCV_LAST_FP_REGNUM + 1
        ∧ RISCV_PRIV_REGNUM = RISCV_LAST_CSR_REGNUM + 1)
    ∧ (∀ (c d : Category) (r : Nat), c.contains r → d.contains r → c = d)
    ∧ (∀ r : Nat, r < RISCV_NUM_REGS ↔ ∃ c : Category, c.contains r)
    ∧ (∀ r : Nat, r < RISCV_NUM_REGS → ∃! c : Category, c.contains r)
    ∧ RISCV_NUM_REGS = RISCV_LAST_REGNUM + 1
    ∧ RISCV_NUM_REGS = 4162 := by
  have hdisj : ∀ (c d : Category) (r : Nat), c.contains r → d.contains r → c = d := by
    intro c d r hc hd
    rw [contains_iff] at hc hd
    cases c <;> cases d <;> simp only at hc hd <;> first | rfl | omega
  have hcover : ∀ r : Nat, r < RISCV_NUM_REGS → ∃ c : Category, c.contains r := by
    intro r hr
    have hr2 : r < 4162 := hr
    have hcases : r ≤ 31 ∨ r = 32 ∨ (33 ≤ r ∧ r ≤ 64) ∨ (65 ≤ r ∧ r ≤ 4160) ∨ r = 4161 := by
      omega
    rcases hcases with h | h | h | h | h
    · exact ⟨.gp, (contains_iff .gp r).mpr h⟩
    · exact ⟨.pc, (contains_iff .pc r).mpr h⟩
    · exact ⟨.fp, (contains_iff .fp r).mpr h⟩
    · exact ⟨.csr, (contains_iff .csr r).mpr h⟩
    · exact ⟨.priv, (contains_iff .priv r).mpr h⟩
  refine ⟨⟨rfl, rfl⟩, rfl, ⟨rfl, rfl⟩, ⟨rfl, rfl⟩, rfl, ⟨rfl, rfl, rfl, rfl⟩, hdisj,
    fun r => ⟨hcover r, ?_⟩, ?_, rfl, rfl⟩
  · rintro ⟨c, hc⟩
    rw [contains_iff] at hc
    show r < 4162
    cases c <;> simp only at hc <;> omega
  · intro r hr
    obtain ⟨c, hc⟩ := hcover r hr
    exact ⟨c, hc, fun d hd => hdisj d c r hd hc⟩

/-- Register number 3921 lies below the total count and belongs to the CSR
category and to no other. -/
theorem register_namespace_partitioned_witness :
    ∃! c : Category, c.contains 3921 :=
  register_namespace_partitioned.2.2.2.2.2.2.2.2.1 3921 (by decide)

/-- C9: the register enumerators take pairwise distinct values: the 32
general-purpose names take exactly 0..31, the 32 floating-point names take
exactly 33..64 (so `RISCV_FT11_REGNUM` is `RISCV_LAST_FP_REGNUM`), and
together with `RISCV_PC_REGNUM`, the CSR entries generated from a table of
distinct hardware numbers in 0..4095, and `RISCV_PRIV_REGNUM`, no value
occurs twice. -/
theorem register_enumerators_distinct (opc : List Nat)
    (hrange : ∀ num ∈ opc, num ≤ 4095) (hopc : opc.Nodup) :
    gp_enumerators = List.range 32
    ∧ (RISCV_ZERO_REGNUM = 0 ∧ RISCV_T6_REGNUM = 31)
    ∧ fp_enumerators = List.range' 33 32
    ∧ (RISCV_FT0_REGNUM = 33 ∧ RISCV_FT11_REGNUM = RISCV_LAST_FP_REGNUM)
    ∧ (register_enumerators opc).Nodup := by
  refine ⟨gp_enumerators_eq, ⟨rfl, rfl⟩, fp_enumerators_eq, ⟨rfl, rfl⟩, ?_⟩
  unfold register_enumerators
  rw [gp_pc_fp_eq]
  have hcsr : (csr_enumerators opc).Nodup := hopc.map DECLARE_CSR_injective
  have hbound : ∀ r ∈ csr_enumerators opc, 65 ≤ r ∧ r ≤ 4160 := by
    intro r hr
    obtain ⟨num, hmem, rfl⟩ := mem_csr_enumerators hr
    have := hrange num hmem
    omega
  have hleft : (List.range 65 ++ csr_enumerators opc).Nodup := by
    refine List.Nodup.append (List.nodup_range 65) hcsr ?_
    intro r h1 h2
    have h3 := List.mem_range.mp h1
    have h4 := hbound r h2
    omega
  refine List.Nodup.append hleft (List.nodup_singleton _) ?_
  intro r h1 h2
  have h5 : r = 4161 := List.mem_singleton.mp h2
  rcases List.mem_append.mp h1 with h | h
  · have := List.mem_range.mp h
    omega
  · have := hbound r h
    omega

/-- The enum built from a table declaring the CSRs 0x000, 0x001, 0x300,
0x301, 0xc00 and 0xfff has no repeated value. -/
theorem register_enumerators_distinct_witness :
    (∀ num ∈ [0x000, 0x001, 0x300, 0x301, 0xc00, 0xfff], num ≤ 4095)
    ∧ [0x000, 0x001, 0x300, 0x301, 0xc00, 0xfff].Nodup
    ∧ (register_enumerators [0x000, 0x001, 0x300, 0x301, 0xc00, 0xfff]).Nodup :=
  ⟨by decide, by decide,
   (register_enumerators_distinct [0x000, 0x001, 0x300, 0x301, 0xc00, 0xfff]
      (by decide) (by decide)).2.2.2.2⟩

end RiscvTdep

/-! ## Properties of the x86-64 GNU/Linux native code -/

namespace X86_64LinuxNat

/-! ### The two loops over `regmap` -/

theorem supply_register_apply (regnum val : Nat) (registers : RegCache) (r : Nat) :
    supply_register regnum val registers r = if r = regnum then val else registers r :=
  rfl

theorem supply_loop_apply (T : Target) (gregsetp : GregSet) (registers : RegCache)
    (n i : Nat) :
    (List.range n).foldl
        (fun regs i => supply_register i (gregsetp (regmap_at T i)) regs) registers i
      = if i < n then gregsetp (regmap_at T i) else registers i := by
  induction n with
  | zero => simp
  | succ n ih =>
    rw [List.range_succ, List.foldl_append, List.foldl_cons, List.foldl_nil,
      supply_register_apply]
    by_cases hi : i = n
    · subst hi
      simp
    · rw [if_neg hi, ih]
      by_cases hlt : i < n
      · rw [if_pos hlt, if_pos (by omega)]
      · rw [if_neg hlt, if_neg (by omega)]

theorem supply_gregset_apply (T : Target) (gregsetp : GregSet) (registers : RegCache)
    (i : Nat) :
    supply_gregset T gregsetp registers i
      = if i < T.X86_64_NUM_GREGS then gregsetp (regmap_at T i) else registers i :=
  supply_loop_apply T gregsetp registers T.X86_64_NUM_GREGS i

theorem fill_loop_all (T : Target) (registers : RegCache) (gregsetp : GregSet)
    (n : Nat) (h : ∀ i, i < n → registers i = gregsetp (regmap_at T i)) :
    (List.range n).foldl
        (fun regp (i : Nat) =>
          if (-1 : Int) = -1 ∨ (-1 : Int) = (i : Int) then
            regcache_collect registers i (regmap_at T i) regp
          else regp)
        gregsetp
      = gregsetp := by
  induction n with
  | zero => simp
  | succ n ih =>
    rw [List.range_succ, List.foldl_append, List.foldl_cons, List.foldl_nil,
      ih (fun i hi => h i (by omega))]
    rw [if_pos (Or.inl rfl)]
    funext p
    unfold regcache_collect
    by_cases hp : p = regmap_at T n
    · rw [if_pos hp, hp, h n (by omega)]
    · rw [if_neg hp]

theorem fill_loop_one (T : Target) (registers : RegCache) (gregsetp : GregSet)
    (k n : Nat) :
    (List.range n).foldl
        (fun regp (i : Nat) =>
          if ((k : Nat) : Int) = -1 ∨ ((k : Nat) : Int) = (i : Int) then
            regcache_collect registers i (regmap_at T i) regp
          else regp)
        gregsetp
      = if k < n then regcache_collect registers k (regmap_at T k) gregsetp
        else gregsetp := by
  induction n with
  | zero => simp
  | succ n ih =>
    rw [List.range_succ, List.foldl_append, List.foldl_cons, List.foldl_nil, ih]
    by_cases hk : k = n
    · subst hk
      simp
    · have h1 : ¬ (((k : Nat) : Int) = -1 ∨ ((k : Nat) : Int) = (n : Int)) := by omega
      rw [if_neg h1]
      by_cases hlt : k < n
      · rw [if_pos hlt, if_pos (by omega)]
      · rw [if_neg hlt, if_neg (by omega)]

theorem fill_gregset_all (T : Target) (registers : RegCache) (gregsetp : GregSet)
    (h : ∀ i, i < T.X86_64_NUM_GREGS → registers i = gregsetp (regmap_at T i)) :
    fill_gregset T registers gregsetp (-1) = gregsetp :=
  fill_loop_all T registers gregsetp T.X86_64_NUM_GREGS h

theorem fill_gregset_one (T : Target) (registers : RegCache) (gregsetp : GregSet)
    (k : Nat) (hk : k < T.X86_64_NUM_GREGS) :
    fill_gregset T registers gregsetp (k : Int)
      = regcache_collect registers k (regmap_at T k) gregsetp := by
  unfold fill_gregset
  rw [fill_loop_one, if_pos hk]

/-! ### What one bulk transfer does -/

theorem length_issue (w : World) (c : PtraceCall) :
    (w.issue c).calls.length = w.calls.length + 1 := by
  simp [World.issue]

theorem fetch_regs_ok (T : Target) (tid : Int) (w : World)
    (h : w.fails w.calls.length = false) :
    fetch_regs T tid w =
      (.ok (), { w.issue (.PTRACE_GETREGS tid) with
        registers := supply_gregset T (w.kernel.gregs tid) w.registers }) := by
  simp [fetch_regs, ptrace_getregs, World.next_fails, h, World.issue]

theorem fetch_regs_error (T : Target) (tid : Int) (w : World)
    (h : w.fails w.calls.length = true) :
    fetch_regs T tid w =
      (.error (.perror_with_name "Couldn't get registers"),
        w.issue (.PTRACE_GETREGS tid)) := by
  simp [fetch_regs, ptrace_getregs, World.next_fails, h]

theorem store_regs_get_error (T : Target) (tid regno : Int) (w : World)
    (h : w.fails w.calls.length = true) :
    store_regs T tid regno w =
      (.error (.perror_with_name "Couldn't get registers"),
        w.issue (.PTRACE_GETREGS tid)) := by
  simp [store_regs, ptrace_getregs, World.next_fails, h]

theorem store_regs_ok (T : Target) (tid regno : Int) (w : World)
    (h0 : w.fails w.calls.length = false)
    (h1 : w.fails (w.calls.length + 1) = false) :
    store_regs T tid regno w =
      (.ok (),
        { w with
          calls := w.calls ++ [.PTRACE_GETREGS tid,
            .PTRACE_SETREGS tid (fill_gregset T w.registers (w.kernel.gregs tid) regno)]
          kernel := { w.kernel with
            gregs := Function.update w.kernel.gregs tid
              (fill_gregset T w.registers (w.kernel.gregs tid) regno) } }) := by
  simp [store_regs, ptrace_getregs, ptrace_setregs, World.next_fails, h0, h1, World.issue]

theorem store_regs_set_error (T : Target) (tid regno : Int) (w : World)
    (h0 : w.fails w.calls.length = false)
    (h1 : w.fails (w.calls.length + 1) = true) :
    store_regs T tid regno w =
      (.error (.perror_with_name "Couldn't write registers"),
        { w with
          calls := w.calls ++ [.PTRACE_GETREGS tid,
            .PTRACE_SETREGS tid (fill_gregset T w.registers (w.kernel.gregs tid) regno)] }) := by
  simp [store_regs, ptrace_getregs, ptrace_setregs, World.next_fails, h0, h1, World.issue]

theorem issued_append (w : World) (cs : List PtraceCall) (w1 : World)
    (h : w1.calls = w.calls ++ cs) : issued w w1 = cs := by
  simp [issued, h]

theorem linux_user_reg_injective : Function.Injective linux.user_reg := by
  intro a b h
  cases a <;> cases b <;> first | rfl | exact absurd h (by decide)

theorem regmap_nodup : regmap.Nodup := by decide

theorem regmap_at_lt (T : Target) (i : Nat) (h : i < regmap.length) :
    regmap_at T i = T.user_reg (regmap.get ⟨i, h⟩) := by
  unfold regmap_at
  rw [List.getD_eq_getElem?_getD, List.getElem?_map, List.getElem?_eq_getElem h]
  rfl

theorem regmap_at_injective (T : Target) (hreg : Function.Injective T.user_reg)
    (i j : Nat) (hi : i < regmap.length) (hj : j < regmap.length)
    (h : regmap_at T i = regmap_at T j) : i = j := by
  rw [regmap_at_lt T i hi, regmap_at_lt T j hj] at h
  have h2 := (List.Nodup.get_inj_iff regmap_nodup).mp (hreg h)
  exact Fin.mk.inj_iff.mp h2

/-! ### The claims on the general-purpose transfer -/

/-- C1: when the three `ptrace` requests succeed, `fetch_regs (tid)`
followed at once by `store_regs (tid, -1)` returns normally, hands the
kernel back the block it read, and leaves every word of the traced
thread's general-register block as it was, whether `regmap` refers to the
word or not. -/
theorem fetch_store_round_trip (T : Target) (w : World) (tid : Int)
    (h0 : w.fails w.calls.length = false)
    (h1 : w.fails (w.calls.length + 1) = false)
    (h2 : w.fails (w.calls.length + 2) = false) :
    (fetch_regs T tid w).1 = .ok ()
    ∧ (store_regs T tid (-1) (fetch_regs T tid w).2).1 = .ok ()
    ∧ issued w (store_regs T tid (-1) (fetch_regs T tid w).2).2
        = [.PTRACE_GETREGS tid, .PTRACE_GETREGS tid,
            .PTRACE_SETREGS tid (w.kernel.gregs tid)]
    ∧ ∀ pos : Nat,
        (store_regs T tid (-1) (fetch_regs T tid w).2).2.kernel.gregs tid pos
          = w.kernel.gregs tid pos := by
  have hfill :
      fill_gregset T (supply_gregset T (w.kernel.gregs tid) w.registers)
        (w.kernel.gregs tid) (-1) = w.kernel.gregs tid := by
    apply fill_gregset_all
    intro i hi
    rw [supply_gregset_apply, if_pos hi]
  rw [fetch_regs_ok T tid w h0]
  rw [store_regs_ok T tid (-1) _ (by simpa [World.issue] using h1)
    (by simpa [World.issue] using h2)]
  refine ⟨rfl, rfl, ?_, ?_⟩
  · apply issued_append
    simp [World.issue, hfill]
  · intro pos
    simp [World.issue, hfill]

/-- On GNU/Linux, with thread 1 holding `1000 + pos` in word `pos`, the
fetch and the store both return and word 15, which `regmap` does not name,
still holds 1015. -/
theorem fetch_store_round_trip_witness :
    (fetch_regs linux 1 (sample_world ⟨1, 0⟩ (fun _ => 0) (fun pos => 1000 + pos))).1
        = .ok ()
    ∧ (store_regs linux 1 (-1)
        (fetch_regs linux 1
          (sample_world ⟨1, 0⟩ (fun _ => 0) (fun pos => 1000 + pos))).2).2.kernel.gregs 1 15
        = 1015 :=
  ⟨(fetch_store_round_trip linux (sample_world ⟨1, 0⟩ (fun _ => 0) (fun pos => 1000 + pos))
      1 rfl rfl rfl).1,
   (fetch_store_round_trip linux (sample_world ⟨1, 0⟩ (fun _ => 0) (fun pos => 1000 + pos))
      1 rfl rfl rfl).2.2.2 15⟩

/-- C2: for a general-purpose register number `regno` and a baseline block
returned by the get request, `store_regs (tid, regno)` issues the get
request and then a set request whose block holds the register array's
value of `regno` at position `regmap[regno]` and the baseline's word at
every other position. -/
theorem store_regs_isolation (T : Target) (w : World) (tid regno : Int)
    (hlo : 0 ≤ regno) (hhi : regno < (T.X86_64_NUM_GREGS : Int))
    (hget : w.fails w.calls.length = false) :
    ∃ regs : GregSet,
      issued w (store_regs T tid regno w).2
        = [.PTRACE_GETREGS tid, .PTRACE_SETREGS tid regs]
      ∧ regs (regmap_at T regno.toNat) = w.registers regno.toNat
      ∧ ∀ pos : Nat, pos ≠ regmap_at T regno.toNat →
          regs pos = w.kernel.gregs tid pos := by
  obtain ⟨k, rfl⟩ := Int.eq_ofNat_of_zero_le hlo
  have hk : k < T.X86_64_NUM_GREGS := by omega
  refine ⟨fill_gregset T w.registers (w.kernel.gregs tid) (k : Int), ?_, ?_, ?_⟩
  · apply issued_append
    cases h1 : w.fails (w.calls.length + 1)
    · rw [store_regs_ok T tid _ w hget h1]
    · rw [store_regs_set_error T tid _ w hget h1]
  · rw [fill_gregset_one T _ _ k hk]
    simp [regcache_collect]
  · intro pos hpos
    rw [fill_gregset_one T _ _ k hk]
    simp only [Int.toNat_ofNat] at hpos
    simp [regcache_collect, hpos]

/-- On GNU/Linux, storing register 4 (`rsi`, kept at position 13) from a
register array holding `7000 + r` over a baseline holding `1000 + pos`
passes a block with 7004 at position 13 and the baseline elsewhere. -/
theorem store_regs_isolation_witness :
    ∃ regs : GregSet,
      issued (sample_world ⟨1, 0⟩ (fun r => 7000 + r) (fun pos => 1000 + pos))
          (store_regs linux 1 4
            (sample_world ⟨1, 0⟩ (fun r => 7000 + r) (fun pos => 1000 + pos))).2
        = [.PTRACE_GETREGS 1, .PTRACE_SETREGS 1 regs]
      ∧ regs (regmap_at linux (4 : Int).toNat)
          = (sample_world ⟨1, 0⟩ (fun r => 7000 + r) (fun pos => 1000 + pos)).registers
              (4 : Int).toNat
      ∧ ∀ pos : Nat, pos ≠ regmap_at linux (4 : Int).toNat →
          regs pos
            = (sample_world ⟨1, 0⟩ (fun r => 7000 + r)
                (fun pos => 1000 + pos)).kernel.gregs 1 pos :=
  store_regs_isolation linux
    (sample_world ⟨1, 0⟩ (fun r => 7000 + r) (fun pos => 1000 + pos)) 1 4
    (by decide) (by decide) rfl

/-- C3: for a target whose `struct user` names have distinct positions and
whose `X86_64_NUM_GREGS` is 24, `regmap` has exactly `X86_64_NUM_GREGS`
entries, one for each register number that `GETREGS_SUPPLIES` accepts, no
two register numbers share a buffer position, and `regmap` is a bijection
from the general-purpose register numbers onto the buffer positions it
lists. -/
theorem regmap_bijection (T : Target) (hreg : Function.Injective T.user_reg)
    (hn : T.X86_64_NUM_GREGS = 24) :
    regmap.length = T.X86_64_NUM_GREGS
    ∧ (∀ regno : Int, GETREGS_SUPPLIES T regno = true ↔
        ∃ i : Nat, i < regmap.length ∧ regno = (i : Int))
    ∧ (∀ i j : Nat, i < T.X86_64_NUM_GREGS → j < T.X86_64_NUM_GREGS →
        regmap_at T i = regmap_at T j → i = j)
    ∧ Set.BijOn (regmap_at T) {i | i < T.X86_64_NUM_GREGS}
        {pos | pos ∈ regmap.map T.user_reg} := by
  have hlen : regmap.length = 24 := rfl
  refine ⟨by rw [hn, hlen], ?_, ?_, ?_, ?_, ?_⟩
  · intro regno
    unfold GETREGS_SUPPLIES
    rw [hn, hlen]
    simp only [Bool.and_eq_true, decide_eq_true_eq]
    constructor
    · rintro ⟨h1, h2⟩
      exact ⟨regno.toNat, by omega, by omega⟩
    · rintro ⟨i, h1, rfl⟩
      omega
  · intro i j hi hj h
    exact regmap_at_injective T hreg i j (by omega) (by omega) h
  · intro i hi
    have hi2 : i < regmap.length := by
      have : i < T.X86_64_NUM_GREGS := hi
      omega
    show regmap_at T i ∈ regmap.map T.user_reg
    rw [regmap_at_lt T i hi2]
    exact List.mem_map.mpr ⟨_, List.get_mem _ _ _, rfl⟩
  · intro i hi j hj h
    have hi2 : i < T.X86_64_NUM_GREGS := hi
    have hj2 : j < T.X86_64_NUM_GREGS := hj
    exact regmap_at_injective T hreg i j (by omega) (by omega) h
  · intro pos hpos
    obtain ⟨r, hr, rfl⟩ := List.mem_map.mp hpos
    obtain ⟨n, rfl⟩ := List.mem_iff_get.mp hr
    refine ⟨n.1, ?_, ?_⟩
    · show n.1 < T.X86_64_NUM_GREGS
      have := n.2
      omega
    · rw [regmap_at_lt T n.1 n.2]

/-- On GNU/Linux the table has 24 entries and the register numbers 0
(`rax`, position 10) and 17 (`eflags`, position 18) do not share a
position. -/
theorem regmap_bijection_witness :
    regmap.length = linux.X86_64_NUM_GREGS
    ∧ (regmap_at linux 0 = regmap_at linux 17 → 0 = 17) :=
  ⟨(regmap_bijection linux linux_user_reg_injective rfl).1,
   (regmap_bijection linux linux_user_reg_injective rfl).2.2.1 0 17
      (by decide) (by decide)⟩

/-- The claim C4 as worded fails on GNU/Linux: thread 1 holds `1000 + pos`
in word `pos`; the fetch succeeds and 0 is a buffer position below
`X86_64_NUM_GREGS`, yet logical slot `regmap[0]` (slot 10) ends up with
1007, the word at position `regmap[10]` = 7, and not with the word 1000 at
buffer position 0. -/
theorem fetch_direction_counterexample :
    (fetch_regs linux 1
        (sample_world ⟨1, 0⟩ (fun _ => 0) (fun pos => 1000 + pos))).1 = .ok ()
    ∧ 0 < linux.X86_64_NUM_GREGS
    ∧ regmap_at linux 0 = 10
    ∧ (fetch_regs linux 1
        (sample_world ⟨1, 0⟩ (fun _ => 0) (fun pos => 1000 + pos))).2.registers
          (regmap_at linux 0) = 1007
    ∧ (sample_world ⟨1, 0⟩ (fun _ => 0) (fun pos => 1000 + pos)).kernel.gregs 1 0 = 1000
    ∧ (fetch_regs linux 1
        (sample_world ⟨1, 0⟩ (fun _ => 0) (fun pos => 1000 + pos))).2.registers
          (regmap_at linux 0)
        ≠ (sample_world ⟨1, 0⟩ (fun _ => 0) (fun pos => 1000 + pos)).kernel.gregs 1 0 := by
  refine ⟨rfl, by decide, rfl, rfl, rfl, ?_⟩
  decide

/-- C4 (amended): after `fetch_regs` succeeds, for every logical register
number `i` below `X86_64_NUM_GREGS` the word at buffer position `regmap[i]`
of the kernel's general-register block has been copied into logical
register slot `i`. -/
theorem fetch_regs_direction (T : Target) (w : World) (tid : Int)
    (hget : w.fails w.calls.length = false) :
    (fetch_regs T tid w).1 = .ok ()
    ∧ ∀ i : Nat, i < T.X86_64_NUM_GREGS →
        (fetch_regs T tid w).2.registers i = w.kernel.gregs tid (regmap_at T i) := by
  rw [fetch_regs_ok T tid w hget]
  refine ⟨rfl, fun i hi => ?_⟩
  show supply_gregset T (w.kernel.gregs tid) w.registers i = _
  rw [supply_gregset_apply, if_pos hi]

/-- On GNU/Linux, with thread 1 holding `1000 + pos` in word `pos`, logical
slot 0 (`rax`) receives 1010, the word at position `regmap[0]` = 10. -/
theorem fetch_regs_direction_witness :
    (fetch_regs linux 1
        (sample_world ⟨1, 0⟩ (fun _ => 0) (fun pos => 1000 + pos))).2.registers 0
      = (sample_world ⟨1, 0⟩ (fun _ => 0) (fun pos => 1000 + pos)).kernel.gregs 1
          (regmap_at linux 0) :=
  (fetch_regs_direction linux
      (sample_world ⟨1, 0⟩ (fun _ => 0) (fun pos => 1000 + pos)) 1 rfl).2 0 (by decide)

/-! ### Dispatch on the register number -/

theorem fetch_fpregs_ok (T : Target) (tid : Int) (w : World)
    (h : w.fails w.calls.length = false) :
    fetch_fpregs T tid w =
      (.ok (), { w.issue (.PTRACE_GETFPREGS tid) with
        registers := supply_fpregset T (w.kernel.fpregs tid) w.registers }) := by
  simp [fetch_fpregs, ptrace_getfpregs, World.next_fails, h, World.issue]

theorem fetch_fpregs_error (T : Target) (tid : Int) (w : World)
    (h : w.fails w.calls.length = true) :
    fetch_fpregs T tid w =
      (.error (.perror_with_name "Couldn't get floating point status"),
        w.issue (.PTRACE_GETFPREGS tid)) := by
  simp [fetch_fpregs, ptrace_getfpregs, World.next_fails, h]

theorem store_fpregs_get_error (T : Target) (tid regno : Int) (w : World)
    (h : w.fails w.calls.length = true) :
    store_fpregs T tid regno w =
      (.error (.perror_with_name "Couldn't get floating point status"),
        w.issue (.PTRACE_GETFPREGS tid)) := by
  simp [store_fpregs, ptrace_getfpregs, World.next_fails, h]

theorem store_fpregs_ok (T : Target) (tid regno : Int) (w : World)
    (h0 : w.fails w.calls.length = false)
    (h1 : w.fails (w.calls.length + 1) = false) :
    store_fpregs T tid regno w =
      (.ok (),
        { w with
          calls := w.calls ++ [.PTRACE_GETFPREGS tid,
            .PTRACE_SETFPREGS tid (fill_fpregset T w.registers (w.kernel.fpregs tid) regno)]
          kernel := { w.kernel with
            fpregs := Function.update w.kernel.fpregs tid
              (fill_fpregset T w.registers (w.kernel.fpregs tid) regno) } }) := by
  simp [store_fpregs, ptrace_getfpregs, ptrace_setfpregs, World.next_fails, h0, h1,
    World.issue]

theorem store_fpregs_set_error (T : Target) (tid regno : Int) (w : World)
    (h0 : w.fails w.calls.length = false)
    (h1 : w.fails (w.calls.length + 1) = true) :
    store_fpregs T tid regno w =
      (.error (.perror_with_name "Couldn't write floating point status"),
        { w with
          calls := w.calls ++ [.PTRACE_GETFPREGS tid,
            .PTRACE_SETFPREGS tid
              (fill_fpregset T w.registers (w.kernel.fpregs tid) regno)] }) := by
  simp [store_fpregs, ptrace_getfpregs, ptrace_setfpregs, World.next_fails, h0, h1,
    World.issue]

theorem fetch_regs_transfer (T : Target) (tid : Int) : Transfer (fetch_regs T tid) := by
  intro w
  cases h : w.fails w.calls.length
  · rw [fetch_regs_ok T tid w h]
    exact ⟨(fun s n hc => nomatch hc), fun _ => rfl, rfl⟩
  · rw [fetch_regs_error T tid w h]
    exact ⟨(fun s n hc => nomatch hc), fun hall => absurd (hall _) (by rw [h]; decide), rfl⟩

theorem fetch_fpregs_transfer (T : Target) (tid : Int) :
    Transfer (fetch_fpregs T tid) := by
  intro w
  cases h : w.fails w.calls.length
  · rw [fetch_fpregs_ok T tid w h]
    exact ⟨(fun s n hc => nomatch hc), fun _ => rfl, rfl⟩
  · rw [fetch_fpregs_error T tid w h]
    exact ⟨(fun s n hc => nomatch hc), fun hall => absurd (hall _) (by rw [h]; decide), rfl⟩

theorem store_regs_transfer (T : Target) (tid regno : Int) :
    Transfer (store_regs T tid regno) := by
  intro w
  cases h : w.fails w.calls.length
  · cases h1 : w.fails (w.calls.length + 1)
    · rw [store_regs_ok T tid regno w h h1]
      exact ⟨(fun s n hc => nomatch hc), fun _ => rfl, rfl⟩
    · rw [store_regs_set_error T tid regno w h h1]
      exact ⟨(fun s n hc => nomatch hc), fun hall => absurd (hall _) (by rw [h1]; decide), rfl⟩
  · rw [store_regs_get_error T tid regno w h]
    exact ⟨(fun s n hc => nomatch hc), fun hall => absurd (hall _) (by rw [h]; decide), rfl⟩

theorem store_fpregs_transfer (T : Target) (tid regno : Int) :
    Transfer (store_fpregs T tid regno) := by
  intro w
  cases h : w.fails w.calls.length
  · cases h1 : w.fails (w.calls.length + 1)
    · rw [store_fpregs_ok T tid regno w h h1]
      exact ⟨(fun s n hc => nomatch hc), fun _ => rfl, rfl⟩
    · rw [store_fpregs_set_error T tid regno w h h1]
      exact ⟨(fun s n hc => nomatch hc), fun hall => absurd (hall _) (by rw [h1]; decide), rfl⟩
  · rw [store_fpregs_get_error T tid regno w h]
    exact ⟨(fun s n hc => nomatch hc), fun hall => absurd (hall _) (by rw [h]; decide), rfl⟩

theorem seq_transfer (m k : Run Unit) (hm : Transfer m) (hk : Transfer k) :
    Transfer (Run.seq m k) := by
  intro w
  obtain ⟨hm1, hm2, hm3⟩ := hm w
  unfold Run.seq
  rcases hmw : m w with ⟨r, w1⟩
  rw [hmw] at hm1 hm2 hm3
  cases r with
  | error e =>
    refine ⟨fun s n hc => hm1 s n hc, fun hall => ?_, hm3⟩
    have := hm2 hall
    cases this
  | ok u =>
    obtain ⟨hk1, hk2, hk3⟩ := hk w1
    refine ⟨hk1, fun hall => hk2 (fun n => ?_), ?_⟩
    · have h3 : w1.fails = w.fails := hm3
      rw [h3]
      exact hall n
    · have h3 : w1.fails = w.fails := hm3
      show (k w1).2.fails = w.fails
      rw [hk3, h3]

theorem bad_register_number_iff (T : Target) (regno : Int) :
    bad_register_number T regno ↔
      regno ≠ -1 ∧ GETREGS_SUPPLIES T regno = false
        ∧ GETFPREGS_SUPPLIES T regno = false := by
  unfold bad_register_number GETREGS_SUPPLIES GETFPREGS_SUPPLIES
  simp only [Bool.and_eq_false_imp, decide_eq_true_eq, decide_eq_false_iff_not]
  constructor
  · rintro ⟨h1, h2, h3⟩
    exact ⟨h1, fun a b => h2 ⟨a, b⟩, fun a b => h3 ⟨a, b⟩⟩
  · rintro ⟨h1, h2, h3⟩
    exact ⟨h1, fun a => h2 a.1 a.2, fun a => h3 a.1 a.2⟩

/-- The shape shared by `fetch_inferior_registers` and
`store_inferior_registers`: three transfers selected by the register
number, and otherwise an internal error raised on the spot. -/
theorem dispatch_raises (T : Target) (regno : Int) (w : World)
    (all gp fpr : Run Unit) (e : Failure) (s : String)
    (he : e = .internal_error s regno)
    (hall : Transfer all) (hgp : Transfer gp) (hfp : Transfer fpr)
    (f : Run Unit)
    (hf : f w =
      if regno = -1 then all w
      else if GETREGS_SUPPLIES T regno then gp w
      else if GETFPREGS_SUPPLIES T regno then fpr w
      else (.error e, w)) :
    ((f w).1 = .error e ↔ bad_register_number T regno)
    ∧ (∀ s1 n, (f w).1 = .error (.internal_error s1 n) → bad_register_number T regno)
    ∧ (bad_register_number T regno → (f w).2 = w)
    ∧ ((∀ n, w.fails n = false) → ((f w).1 = .ok () ↔ ¬ bad_register_number T regno)) := by
  subst he
  have hbad := bad_register_number_iff T regno
  by_cases h1 : regno = -1
  · have hnb : ¬ bad_register_number T regno := fun h => (hbad.mp h).1 h1
    rw [hf, if_pos h1]
    obtain ⟨a1, a2, _⟩ := hall w
    exact ⟨⟨fun h => absurd h (a1 _ _), fun h => absurd h hnb⟩,
      fun s1 n h => absurd h (a1 _ _), fun h => absurd h hnb,
      fun hok => ⟨fun _ => hnb, fun _ => a2 hok⟩⟩
  · by_cases h2 : GETREGS_SUPPLIES T regno = true
    · have hnb : ¬ bad_register_number T regno := fun h => by
        have h4 := (hbad.mp h).2.1
        rw [h2] at h4
        cases h4
      rw [hf, if_neg h1, if_pos h2]
      obtain ⟨a1, a2, _⟩ := hgp w
      exact ⟨⟨fun h => absurd h (a1 _ _), fun h => absurd h hnb⟩,
        fun s1 n h => absurd h (a1 _ _), fun h => absurd h hnb,
        fun hok => ⟨fun _ => hnb, fun _ => a2 hok⟩⟩
    · by_cases h3 : GETFPREGS_SUPPLIES T regno = true
      · have hnb : ¬ bad_register_number T regno := fun h => by
          have h4 := (hbad.mp h).2.2
          rw [h3] at h4
          cases h4
        rw [hf, if_neg h1, if_neg h2, if_pos h3]
        obtain ⟨a1, a2, _⟩ := hfp w
        exact ⟨⟨fun h => absurd h (a1 _ _), fun h => absurd h hnb⟩,
          fun s1 n h => absurd h (a1 _ _), fun h => absurd h hnb,
          fun hok => ⟨fun _ => hnb, fun _ => a2 hok⟩⟩
      · have hb : bad_register_number T regno :=
          hbad.mpr ⟨h1, by simpa using h2, by simpa using h3⟩
        rw [hf, if_neg h1, if_neg h2, if_neg h3]
        exact ⟨⟨fun _ => hb, fun _ => rfl⟩, fun _ _ _ => hb, fun _ => rfl,
          fun _ => ⟨(fun h => nomatch h), fun h => absurd hb h⟩⟩

/-- C5: `fetch_inferior_registers (regno)` and `store_inferior_registers
(regno)` each raise their internal error exactly when `regno` is not -1,
not a general-purpose register number and not a floating-point register
number; they raise no other internal error; when they raise it the world
is untouched, so no `ptrace` request has been issued; and when no request
fails they return normally for every other `regno`. -/
theorem bad_register_number_raises (T : Target) (w : World) (regno : Int) :
    ((fetch_inferior_registers T regno w).1
        = .error (.internal_error "Got request for bad register number %d." regno)
      ↔ bad_register_number T regno)
    ∧ ((store_inferior_registers T regno w).1
        = .error (.internal_error "Got request to store bad register number %d." regno)
      ↔ bad_register_number T regno)
    ∧ (∀ (s : String) (n : Int),
        (fetch_inferior_registers T regno w).1 = .error (.internal_error s n)
          ∨ (store_inferior_registers T regno w).1 = .error (.internal_error s n) →
        bad_register_number T regno)
    ∧ (bad_register_number T regno →
        (fetch_inferior_registers T regno w).2 = w
        ∧ (store_inferior_registers T regno w).2 = w
        ∧ issued w (fetch_inferior_registers T regno w).2 = []
        ∧ issued w (store_inferior_registers T regno w).2 = [])
    ∧ ((∀ n, w.fails n = false) →
        ((fetch_inferior_registers T regno w).1 = .ok () ↔ ¬ bad_register_number T regno)
        ∧ ((store_inferior_registers T regno w).1 = .ok ()
            ↔ ¬ bad_register_number T regno)) := by
  obtain ⟨f1, f2, f3, f4⟩ :=
    dispatch_raises T regno w
      (Run.seq
        (fetch_regs T
          (if TIDGET w.inferior_ptid = 0 then PIDGET w.inferior_ptid
            else TIDGET w.inferior_ptid))
        (fetch_fpregs T
          (if TIDGET w.inferior_ptid = 0 then PIDGET w.inferior_ptid
            else TIDGET w.inferior_ptid)))
      (fetch_regs T
        (if TIDGET w.inferior_ptid = 0 then PIDGET w.inferior_ptid
          else TIDGET w.inferior_ptid))
      (fetch_fpregs T
        (if TIDGET w.inferior_ptid = 0 then PIDGET w.inferior_ptid
          else TIDGET w.inferior_ptid))
      _ "Got request for bad register number %d." rfl
      (seq_transfer _ _ (fetch_regs_transfer T _) (fetch_fpregs_transfer T _))
      (fetch_regs_transfer T _) (fetch_fpregs_transfer T _)
      (fetch_inferior_registers T regno) rfl
  obtain ⟨s1, s2, s3, s4⟩ :=
    dispatch_raises T regno w
      (Run.seq
        (store_regs T
          (if TIDGET w.inferior_ptid = 0 then PIDGET w.inferior_ptid
            else TIDGET w.inferior_ptid) regno)
        (store_fpregs T
          (if TIDGET w.inferior_ptid = 0 then PIDGET w.inferior_ptid
            else TIDGET w.inferior_ptid) regno))
      (store_regs T
        (if TIDGET w.inferior_ptid = 0 then PIDGET w.inferior_ptid
          else TIDGET w.inferior_ptid) regno)
      (store_fpregs T
        (if TIDGET w.inferior_ptid = 0 then PIDGET w.inferior_ptid
          else TIDGET w.inferior_ptid) regno)
      _ "Got request to store bad register number %d." rfl
      (seq_transfer _ _ (store_regs_transfer T _ _) (store_fpregs_transfer T _ _))
      (store_regs_transfer T _ _) (store_fpregs_transfer T _ _)
      (store_inferior_registers T regno) rfl
  refine ⟨f1, s1, ?_, ?_, fun hok => ⟨f4 hok, s4 hok⟩⟩
  · rintro s n (h | h)
    · exact f2 s n h
    · exact s2 s n h
  · intro hb
    refine ⟨f3 hb, s3 hb, ?_, ?_⟩
    · rw [f3 hb]
      simp [issued]
    · rw [s3 hb]
      simp [issued]

/-- On GNU/Linux register number 57, one past `mxcsr`, makes the fetch
raise its internal error with the request log still empty, while register
number 3 is fetched normally. -/
theorem bad_register_number_raises_witness :
    (fetch_inferior_registers linux 57
        (sample_world ⟨1, 0⟩ (fun _ => 0) (fun pos => 1000 + pos))).1
      = .error (.internal_error "Got request for bad register number %d." 57)
    ∧ (fetch_inferior_registers linux 57
        (sample_world ⟨1, 0⟩ (fun _ => 0) (fun pos => 1000 + pos))).2.calls = []
    ∧ (fetch_inferior_registers linux 3
        (sample_world ⟨1, 0⟩ (fun _ => 0) (fun pos => 1000 + pos))).1 = .ok () :=
  ⟨(bad_register_number_raises linux
      (sample_world ⟨1, 0⟩ (fun _ => 0) (fun pos => 1000 + pos)) 57).1.mpr
      ⟨by decide, by decide, by decide⟩,
   congrArg World.calls
    ((bad_register_number_raises linux
      (sample_world ⟨1, 0⟩ (fun _ => 0) (fun pos => 1000 + pos)) 57).2.2.2.1
      ⟨by decide, by decide, by decide⟩).1,
   ((bad_register_number_raises linux
      (sample_world ⟨1, 0⟩ (fun _ => 0) (fun pos => 1000 + pos)) 3).2.2.2.2
      (fun _ => rfl)).1.mpr (fun h => h.2.1 (by decide))⟩

/-- C6: `fetch_inferior_registers (-1)` gives the same result as the
general-purpose fetch followed by the floating-point fetch, in that order,
both addressed to the id resolved from the current inferior id: the same
requests in the same order, the same final register array, and the same
failure if there is one. -/
theorem fetch_wildcard_refines (T : Target) (w : World) :
    fetch_inferior_registers T (-1) w
      = spec_fetch_gp_then_fp T (spec_target_id w.inferior_ptid) w := by
  have htid :
      (if TIDGET w.inferior_ptid = 0 then PIDGET w.inferior_ptid
        else TIDGET w.inferior_ptid) = spec_target_id w.inferior_ptid := by
    unfold spec_target_id TIDGET PIDGET
    by_cases h : w.inferior_ptid.tid = 0
    · rw [if_pos h, if_neg (not_not.mpr h)]
    · rw [if_neg h, if_pos h]
  have hrun :
      fetch_inferior_registers T (-1) w
        = Run.seq (fetch_regs T (spec_target_id w.inferior_ptid))
            (fetch_fpregs T (spec_target_id w.inferior_ptid)) w := by
    rw [← htid]
    rfl
  rw [hrun]
  unfold Run.seq spec_fetch_gp_then_fp
  rcases fetch_regs T (spec_target_id w.inferior_ptid) w with ⟨r, w1⟩
  cases r <;> rfl

/-- C10: `x86_64_linux_dr_set_addr (i, A)` and `x86_64_linux_dr_reset_addr
(i)` fail their assertion exactly when `i < 0` or
`i > DR_LASTADDR - DR_FIRSTADDR`; an index equal to the comparator count
`DR_LASTADDR - DR_FIRSTADDR + 1` fails for every address; and when the
assertion fails the world is untouched, so no debug register has been
written and no request issued. -/
theorem dr_addr_bounds_check (T : Target) (w : World) (i : Int) (A : Nat) :
    ((x86_64_linux_dr_set_addr T i A w).1
        = .error (.gdb_assert "regnum >= 0 && regnum <= DR_LASTADDR - DR_FIRSTADDR")
      ↔ (i < 0 ∨ i > T.DR_LASTADDR - T.DR_FIRSTADDR))
    ∧ ((x86_64_linux_dr_reset_addr T i w).1
        = .error (.gdb_assert "regnum >= 0 && regnum <= DR_LASTADDR - DR_FIRSTADDR")
      ↔ (i < 0 ∨ i > T.DR_LASTADDR - T.DR_FIRSTADDR))
    ∧ ((i < 0 ∨ i > T.DR_LASTADDR - T.DR_FIRSTADDR) →
        (x86_64_linux_dr_set_addr T i A w).2 = w
        ∧ (x86_64_linux_dr_reset_addr T i w).2 = w
        ∧ issued w (x86_64_linux_dr_set_addr T i A w).2 = []
        ∧ issued w (x86_64_linux_dr_reset_addr T i w).2 = [])
    ∧ (i = T.DR_LASTADDR - T.DR_FIRSTADDR + 1 →
        (x86_64_linux_dr_set_addr T i A w)
          = (.error
              (.gdb_assert "regnum >= 0 && regnum <= DR_LASTADDR - DR_FIRSTADDR"), w)) := by
  have hset : ∀ (regnum : Int) (value : Nat) (e : String),
      (x86_64_linux_dr_set regnum value w).1 ≠ .error (.gdb_assert e) := by
    intro regnum value e
    unfold x86_64_linux_dr_set ptrace_write_u
    cases h : w.next_fails <;> simp
  by_cases hin : 0 ≤ i ∧ i ≤ T.DR_LASTADDR - T.DR_FIRSTADDR
  · have hout : ¬ (i < 0 ∨ i > T.DR_LASTADDR - T.DR_FIRSTADDR) := by omega
    unfold x86_64_linux_dr_set_addr x86_64_linux_dr_reset_addr
    simp only [if_pos hin]
    refine ⟨⟨fun h => absurd h (hset _ _ _), fun h => absurd h hout⟩,
      ⟨fun h => absurd h (hset _ _ _), fun h => absurd h hout⟩,
      fun h => absurd h hout, fun h => ?_⟩
    omega
  · have hout : i < 0 ∨ i > T.DR_LASTADDR - T.DR_FIRSTADDR := by omega
    have e1 : x86_64_linux_dr_set_addr T i A w
        = (.error
            (.gdb_assert "regnum >= 0 && regnum <= DR_LASTADDR - DR_FIRSTADDR"), w) := by
      unfold x86_64_linux_dr_set_addr
      exact if_neg hin
    have e2 : x86_64_linux_dr_reset_addr T i w
        = (.error
            (.gdb_assert "regnum >= 0 && regnum <= DR_LASTADDR - DR_FIRSTADDR"), w) := by
      unfold x86_64_linux_dr_reset_addr
      exact if_neg hin
    rw [e1, e2]
    refine ⟨⟨fun _ => hout, fun _ => rfl⟩, ⟨fun _ => hout, fun _ => rfl⟩,
      fun _ => ⟨rfl, rfl, ?_, ?_⟩, fun _ => rfl⟩
    · simp [issued]
    · simp [issued]

/-- On GNU/Linux, which has four comparators, comparator index 4 fails the
assertion with the request log still empty. -/
theorem dr_addr_bounds_check_witness :
    (x86_64_linux_dr_set_addr linux 4 0xdeadbeef
        (sample_world ⟨1, 0⟩ (fun _ => 0) (fun _ => 0))).1
      = .error (.gdb_assert "regnum >= 0 && regnum <= DR_LASTADDR - DR_FIRSTADDR")
    ∧ (x86_64_linux_dr_set_addr linux 4 0xdeadbeef
        (sample_world ⟨1, 0⟩ (fun _ => 0) (fun _ => 0))).2.calls = [] :=
  ⟨(dr_addr_bounds_check linux (sample_world ⟨1, 0⟩ (fun _ => 0) (fun _ => 0))
      4 0xdeadbeef).1.mpr (Or.inr (by decide)),
   congrArg World.calls
    ((dr_addr_bounds_check linux (sample_world ⟨1, 0⟩ (fun _ => 0) (fun _ => 0))
      4 0xdeadbeef).2.2.1 (Or.inr (by decide))).1⟩

/-! ### The debug registers -/

theorem dr_get_ok (regnum : Int) (w : World) (h : w.fails w.calls.length = false) :
    x86_64_linux_dr_get regnum w =
      (.ok (w.kernel.u_debugreg (PIDGET w.inferior_ptid) regnum),
        w.issue (.PT_READ_U (PIDGET w.inferior_ptid) regnum)) := by
  simp [x86_64_linux_dr_get, ptrace_read_u, World.next_fails, h]

theorem dr_get_error (regnum : Int) (w : World) (h : w.fails w.calls.length = true) :
    x86_64_linux_dr_get regnum w =
      (.ok 0, w.issue (.PT_READ_U (PIDGET w.inferior_ptid) regnum)) := by
  simp [x86_64_linux_dr_get, ptrace_read_u, World.next_fails, h]

theorem dr_set_ok (regnum : Int) (value : Nat) (w : World)
    (h : w.fails w.calls.length = false) :
    x86_64_linux_dr_set regnum value w =
      (.ok (),
        { w.issue (.PT_WRITE_U (PIDGET w.inferior_ptid) regnum value) with
          kernel := { w.kernel with
            u_debugreg := Function.update w.kernel.u_debugreg (PIDGET w.inferior_ptid)
              (Function.update (w.kernel.u_debugreg (PIDGET w.inferior_ptid))
                regnum value) } }) := by
  simp [x86_64_linux_dr_set, ptrace_write_u, World.next_fails, h]

theorem dr_set_error (regnum : Int) (value : Nat) (w : World)
    (h : w.fails w.calls.length = true) :
    x86_64_linux_dr_set regnum value w =
      (.error (.perror_with_name "Couldn't write debug register"),
        w.issue (.PT_WRITE_U (PIDGET w.inferior_ptid) regnum value)) := by
  simp [x86_64_linux_dr_set, ptrace_write_u, World.next_fails, h]

theorem dr_set_addr_valid (T : Target) (i : Int) (A : Nat) (w : World)
    (hlo : 0 ≤ i) (hhi : i ≤ T.DR_LASTADDR - T.DR_FIRSTADDR) :
    x86_64_linux_dr_set_addr T i A w = x86_64_linux_dr_set (T.DR_FIRSTADDR + i) A w := by
  unfold x86_64_linux_dr_set_addr
  exact if_pos ⟨hlo, hhi⟩

theorem dr_reset_addr_valid (T : Target) (i : Int) (w : World)
    (hlo : 0 ≤ i) (hhi : i ≤ T.DR_LASTADDR - T.DR_FIRSTADDR) :
    x86_64_linux_dr_reset_addr T i w = x86_64_linux_dr_set (T.DR_FIRSTADDR + i) 0 w := by
  unfold x86_64_linux_dr_reset_addr
  exact if_pos ⟨hlo, hhi⟩

/-- The outcome of a debug-register write, by whether the poke reports an
error. -/
theorem dr_set_raises_iff (regnum : Int) (value : Nat) (w : World) :
    ((x86_64_linux_dr_set regnum value w).1
        = .error (.perror_with_name "Couldn't write debug register")
      ↔ w.fails w.calls.length = true)
    ∧ ((∃ e, (x86_64_linux_dr_set regnum value w).1 = .error e)
      ↔ w.fails w.calls.length = true)
    ∧ ((x86_64_linux_dr_set regnum value w).1 = .ok ()
      ↔ w.fails w.calls.length = false) := by
  cases h : w.fails w.calls.length
  · rw [dr_set_ok regnum value w h]
    exact ⟨⟨(fun hc => nomatch hc), fun hc => nomatch hc⟩,
      ⟨(fun hc => nomatch hc), fun hc => nomatch hc⟩, ⟨fun _ => rfl, fun _ => rfl⟩⟩
  · rw [dr_set_error regnum value w h]
    exact ⟨⟨fun _ => rfl, fun _ => rfl⟩, ⟨fun _ => rfl, fun _ => ⟨_, rfl⟩⟩,
      ⟨(fun hc => nomatch hc), fun hc => nomatch hc⟩⟩

/-- C11: for every valid comparator index `i` and every address `A`, when
the poke and the peek that follows it succeed, `x86_64_linux_dr_set_addr
(i, A)` returns normally and `x86_64_linux_dr_get (DR_FIRSTADDR + i)` run
right after it returns `A`. -/
theorem dr_set_addr_get_round_trip (T : Target) (w : World) (i : Int) (A : Nat)
    (hlo : 0 ≤ i) (hhi : i ≤ T.DR_LASTADDR - T.DR_FIRSTADDR)
    (hpoke : w.fails w.calls.length = false)
    (hpeek : w.fails (w.calls.length + 1) = false) :
    (x86_64_linux_dr_set_addr T i A w).1 = .ok ()
    ∧ (x86_64_linux_dr_get (T.DR_FIRSTADDR + i) (x86_64_linux_dr_set_addr T i A w).2).1
        = .ok A := by
  rw [dr_set_addr_valid T i A w hlo hhi, dr_set_ok _ _ w hpoke]
  refine ⟨rfl, ?_⟩
  rw [dr_get_ok _ _ (by simpa [World.issue] using hpeek)]
  simp [World.issue]

/-- On GNU/Linux, writing 0xdeadbeef to comparator 2 of process 1 and
reading slot 2 back yields 0xdeadbeef. -/
theorem dr_set_addr_get_round_trip_witness :
    (x86_64_linux_dr_get (linux.DR_FIRSTADDR + 2)
        (x86_64_linux_dr_set_addr linux 2 0xdeadbeef
          (sample_world ⟨1, 0⟩ (fun _ => 0) (fun _ => 0))).2).1
      = .ok 0xdeadbeef :=
  (dr_set_addr_get_round_trip linux (sample_world ⟨1, 0⟩ (fun _ => 0) (fun _ => 0))
    2 0xdeadbeef (by decide) (by decide) rfl rfl).2

/-- C12: `x86_64_linux_dr_get` never raises; when the peek reports an error
it returns 0, and when the peek succeeds it returns exactly the word the
request returned; `x86_64_linux_dr_get_status` is that read at slot
`DR_STATUS` and behaves the same. -/
theorem dr_get_fails_soft (T : Target) (w : World) (regnum : Int) :
    (∀ e, (x86_64_linux_dr_get regnum w).1 ≠ .error e)
    ∧ (∀ value : Nat,
        (ptrace_read_u (PIDGET w.inferior_ptid) regnum w).1 = (value, true) →
        (x86_64_linux_dr_get regnum w).1 = .ok 0)
    ∧ (∀ value : Nat,
        (ptrace_read_u (PIDGET w.inferior_ptid) regnum w).1 = (value, false) →
        (x86_64_linux_dr_get regnum w).1 = .ok value)
    ∧ (w.fails w.calls.length = true → (x86_64_linux_dr_get regnum w).1 = .ok 0)
    ∧ (w.fails w.calls.length = false →
        (x86_64_linux_dr_get regnum w).1
          = .ok (w.kernel.u_debugreg (PIDGET w.inferior_ptid) regnum))
    ∧ x86_64_linux_dr_get_status T w = x86_64_linux_dr_get T.DR_STATUS w
    ∧ (∀ e, (x86_64_linux_dr_get_status T w).1 ≠ .error e)
    ∧ (w.fails w.calls.length = true → (x86_64_linux_dr_get_status T w).1 = .ok 0)
    ∧ (w.fails w.calls.length = false →
        (x86_64_linux_dr_get_status T w).1
          = .ok (w.kernel.u_debugreg (PIDGET w.inferior_ptid) T.DR_STATUS)) := by
  have hst : x86_64_linux_dr_get_status T w = x86_64_linux_dr_get T.DR_STATUS w := rfl
  have key : ∀ r : Int,
      (∀ e, (x86_64_linux_dr_get r w).1 ≠ .error e)
      ∧ (w.fails w.calls.length = true → (x86_64_linux_dr_get r w).1 = .ok 0)
      ∧ (w.fails w.calls.length = false →
          (x86_64_linux_dr_get r w).1
            = .ok (w.kernel.u_debugreg (PIDGET w.inferior_ptid) r)) := by
    intro r
    cases h : w.fails w.calls.length
    · rw [dr_get_ok r w h]
      exact ⟨(fun e hc => nomatch hc), (fun hc => nomatch hc), fun _ => rfl⟩
    · rw [dr_get_error r w h]
      exact ⟨(fun e hc => nomatch hc), (fun _ => rfl), fun hc => nomatch hc⟩
  refine ⟨(key regnum).1, ?_, ?_, (key regnum).2.1, (key regnum).2.2, hst, ?_, ?_, ?_⟩
  · intro value hv
    unfold x86_64_linux_dr_get
    rcases hp : ptrace_read_u (PIDGET w.inferior_ptid) regnum w with ⟨⟨v, e⟩, w1⟩
    rw [hp] at hv
    simp only [Prod.mk.injEq] at hv
    obtain ⟨_, rfl⟩ := hv
    simp [hp]
  · intro value hv
    unfold x86_64_linux_dr_get
    rcases hp : ptrace_read_u (PIDGET w.inferior_ptid) regnum w with ⟨⟨v, e⟩, w1⟩
    rw [hp] at hv
    simp only [Prod.mk.injEq] at hv
    obtain ⟨rfl, rfl⟩ := hv
    simp [hp]
  · rw [hst]
    exact (key _).1
  · rw [hst]
    exact (key _).2.1
  · rw [hst]
    exact (key _).2.2

/-- On GNU/Linux, with the status register of process 1 holding 5 and the
peek reporting an error, `x86_64_linux_dr_get_status` returns 0. -/
theorem dr_get_fails_soft_witness :
    (x86_64_linux_dr_get_status linux
        { inferior_ptid := ⟨1, 0⟩
          registers := fun _ => 0
          kernel := {
            gregs := fun _ _ => 0
            fpregs := fun _ _ => 0
            u_debugreg := fun _ _ => 5 }
          fails := fun _ => true
          calls := [] }).1 = .ok 0 :=
  (dr_get_fails_soft linux
      { inferior_ptid := ⟨1, 0⟩
        registers := fun _ => 0
        kernel := {
          gregs := fun _ _ => 0
          fpregs := fun _ _ => 0
          u_debugreg := fun _ _ => 5 }
        fails := fun _ => true
        calls := [] } 0).2.2.2.2.2.2.2.1 rfl

theorem ptrace_write_u_errno (tid regnum : Int) (value : Nat) (w : World) :
    (ptrace_write_u tid regnum value w).1 = w.fails w.calls.length := by
  unfold ptrace_write_u World.next_fails
  cases w.fails w.calls.length <;> rfl

/-- C13: `x86_64_linux_dr_set` raises (through `perror_with_name`) exactly
when its poke reports an error and returns normally exactly when the poke
succeeds, so a failed write is never reported as success; the same holds
of `x86_64_linux_dr_set_control`, and of `x86_64_linux_dr_set_addr` and
`x86_64_linux_dr_reset_addr` at a valid comparator index. -/
theorem dr_set_fails_hard (T : Target) (w : World) (regnum : Int) (value control : Nat)
    (i : Int) (A : Nat) (hlo : 0 ≤ i) (hhi : i ≤ T.DR_LASTADDR - T.DR_FIRSTADDR) :
    (((∃ e, (x86_64_linux_dr_set regnum value w).1 = .error e)
        ↔ (ptrace_write_u (PIDGET w.inferior_ptid) regnum value w).1 = true)
      ∧ ((x86_64_linux_dr_set regnum value w).1 = .ok ()
        ↔ (ptrace_write_u (PIDGET w.inferior_ptid) regnum value w).1 = false)
      ∧ ((ptrace_write_u (PIDGET w.inferior_ptid) regnum value w).1 = true →
          (x86_64_linux_dr_set regnum value w).1
            = .error (.perror_with_name "Couldn't write debug register")))
    ∧ (((∃ e, (x86_64_linux_dr_set_control T control w).1 = .error e)
        ↔ (ptrace_write_u (PIDGET w.inferior_ptid) T.DR_CONTROL control w).1 = true)
      ∧ ((x86_64_linux_dr_set_control T control w).1 = .ok ()
        ↔ (ptrace_write_u (PIDGET w.inferior_ptid) T.DR_CONTROL control w).1 = false))
    ∧ (((∃ e, (x86_64_linux_dr_set_addr T i A w).1 = .error e)
        ↔ (ptrace_write_u (PIDGET w.inferior_ptid) (T.DR_FIRSTADDR + i) A w).1 = true)
      ∧ ((x86_64_linux_dr_set_addr T i A w).1 = .ok ()
        ↔ (ptrace_write_u (PIDGET w.inferior_ptid) (T.DR_FIRSTADDR + i) A w).1 = false))
    ∧ (((∃ e, (x86_64_linux_dr_reset_addr T i w).1 = .error e)
        ↔ (ptrace_write_u (PIDGET w.inferior_ptid) (T.DR_FIRSTADDR + i) 0 w).1 = true)
      ∧ ((x86_64_linux_dr_reset_addr T i w).1 = .ok ()
        ↔ (ptrace_write_u (PIDGET w.inferior_ptid) (T.DR_FIRSTADDR + i) 0 w).1
            = false)) := by
  have hctl : x86_64_linux_dr_set_control T control w
      = x86_64_linux_dr_set T.DR_CONTROL control w := rfl
  rw [hctl, dr_set_addr_valid T i A w hlo hhi, dr_reset_addr_valid T i w hlo hhi]
  simp only [ptrace_write_u_errno]
  refine ⟨⟨(dr_set_raises_iff _ _ w).2.1, (dr_set_raises_iff _ _ w).2.2,
      (dr_set_raises_iff _ _ w).1.mpr⟩,
    ⟨(dr_set_raises_iff _ _ w).2.1, (dr_set_raises_iff _ _ w).2.2⟩,
    ⟨(dr_set_raises_iff _ _ w).2.1, (dr_set_raises_iff _ _ w).2.2⟩,
    ⟨(dr_set_raises_iff _ _ w).2.1, (dr_set_raises_iff _ _ w).2.2⟩⟩

/-- On GNU/Linux, when the poke reports an error, writing comparator 1
raises. -/
theorem dr_set_fails_hard_witness :
    ∃ e, (x86_64_linux_dr_set_addr linux 1 0x1000
        { inferior_ptid := ⟨1, 0⟩
          registers := fun _ => 0
          kernel := {
            gregs := fun _ _ => 0
            fpregs := fun _ _ => 0
            u_debugreg := fun _ _ => 0 }
          fails := fun _ => true
          calls := [] }).1 = .error e :=
  (dr_set_fails_hard linux
      { inferior_ptid := ⟨1, 0⟩
        registers := fun _ => 0
        kernel := {
          gregs := fun _ _ => 0
          fpregs := fun _ _ => 0
          u_debugreg := fun _ _ => 0 }
        fails := fun _ => true
        calls := [] } 0 0 0 1 0x1000 (by decide) (by decide)).2.2.1.1.mpr rfl

/-! ### Which process or thread the requests address -/

theorem resolved_tid_eq (w : World) :
    (if TIDGET w.inferior_ptid = 0 then PIDGET w.inferior_ptid
      else TIDGET w.inferior_ptid) = spec_target_id w.inferior_ptid := by
  unfold spec_target_id TIDGET PIDGET
  by_cases h : w.inferior_ptid.tid = 0
  · rw [if_pos h, if_neg (not_not.mpr h)]
  · rw [if_neg h, if_pos h]

theorem fetch_regs_addresses (T : Target) (tid : Int) :
    Addresses tid (fetch_regs T tid) := by
  intro w
  refine ⟨[.PTRACE_GETREGS tid], ?_, by simp, by simp [PtraceCall.target], ?_⟩ <;>
    cases h : w.fails w.calls.length <;>
    first
      | rw [fetch_regs_ok T tid w h]; rfl
      | rw [fetch_regs_error T tid w h]; rfl

theorem fetch_fpregs_addresses (T : Target) (tid : Int) :
    Addresses tid (fetch_fpregs T tid) := by
  intro w
  refine ⟨[.PTRACE_GETFPREGS tid], ?_, by simp, by simp [PtraceCall.target], ?_⟩ <;>
    cases h : w.fails w.calls.length <;>
    first
      | rw [fetch_fpregs_ok T tid w h]; rfl
      | rw [fetch_fpregs_error T tid w h]; rfl

theorem store_regs_addresses (T : Target) (tid regno : Int) :
    Addresses tid (store_regs T tid regno) := by
  intro w
  cases h : w.fails w.calls.length
  · cases h1 : w.fails (w.calls.length + 1)
    · rw [store_regs_ok T tid regno w h h1]
      exact ⟨_, rfl, by simp, by simp [PtraceCall.target], rfl⟩
    · rw [store_regs_set_error T tid regno w h h1]
      exact ⟨_, rfl, by simp, by simp [PtraceCall.target], rfl⟩
  · rw [store_regs_get_error T tid regno w h]
    exact ⟨[.PTRACE_GETREGS tid], rfl, by simp, by simp [PtraceCall.target], rfl⟩

theorem store_fpregs_addresses (T : Target) (tid regno : Int) :
    Addresses tid (store_fpregs T tid regno) := by
  intro w
  cases h : w.fails w.calls.length
  · cases h1 : w.fails (w.calls.length + 1)
    · rw [store_fpregs_ok T tid regno w h h1]
      exact ⟨_, rfl, by simp, by simp [PtraceCall.target], rfl⟩
    · rw [store_fpregs_set_error T tid regno w h h1]
      exact ⟨_, rfl, by simp, by simp [PtraceCall.target], rfl⟩
  · rw [store_fpregs_get_error T tid regno w h]
    exact ⟨[.PTRACE_GETFPREGS tid], rfl, by simp, by simp [PtraceCall.target], rfl⟩

theorem seq_addresses (tid : Int) (m k : Run Unit) (hm : Addresses tid m)
    (hk : Addresses tid k) : Addresses tid (Run.seq m k) := by
  intro w
  obtain ⟨cs, h1, h2, h3, h4⟩ := hm w
  unfold Run.seq
  rcases hmw : m w with ⟨r, w1⟩
  rw [hmw] at h1 h4
  cases r with
  | error e => exact ⟨cs, h1, h2, h3, h4⟩
  | ok u =>
    obtain ⟨ds, k1, k2, k3, k4⟩ := hk w1
    have h1a : w1.calls = w.calls ++ cs := h1
    have h4a : w1.inferior_ptid = w.inferior_ptid := h4
    refine ⟨cs ++ ds, ?_, by simp [h2], ?_, ?_⟩
    · show (k w1).2.calls = w.calls ++ (cs ++ ds)
      rw [k1, h1a, List.append_assoc]
    · intro c hc
      rcases List.mem_append.mp hc with hc | hc
      · exact h3 c hc
      · exact k3 c hc
    · show (k w1).2.inferior_ptid = w.inferior_ptid
      rw [k4, h4a]

/-- The requests issued by a dispatcher shaped like
`fetch_inferior_registers`: all addressed to `tid`, and at least one
unless the register number is bad. -/
theorem dispatch_addresses (T : Target) (regno : Int) (w : World) (tid : Int)
    (all gp fpr : Run Unit) (e : Failure)
    (hall : Addresses tid all) (hgp : Addresses tid gp) (hfp : Addresses tid fpr)
    (f : Run Unit)
    (hf : f w =
      if regno = -1 then all w
      else if GETREGS_SUPPLIES T regno then gp w
      else if GETFPREGS_SUPPLIES T regno then fpr w
      else (.error e, w)) :
    (∀ c ∈ issued w (f w).2, c.target = tid)
    ∧ (¬ bad_register_number T regno → issued w (f w).2 ≠ []) := by
  have hbad := bad_register_number_iff T regno
  have use : ∀ m : Run Unit, Addresses tid m →
      (∀ c ∈ issued w (m w).2, c.target = tid) ∧ issued w (m w).2 ≠ [] := by
    intro m hm
    obtain ⟨cs, h1, h2, h3, _⟩ := hm w
    rw [issued_append w cs _ h1]
    exact ⟨h3, h2⟩
  by_cases h1 : regno = -1
  · rw [hf, if_pos h1]
    exact ⟨(use all hall).1, fun _ => (use all hall).2⟩
  · by_cases h2 : GETREGS_SUPPLIES T regno = true
    · rw [hf, if_neg h1, if_pos h2]
      exact ⟨(use gp hgp).1, fun _ => (use gp hgp).2⟩
    · by_cases h3 : GETFPREGS_SUPPLIES T regno = true
      · rw [hf, if_neg h1, if_neg h2, if_pos h3]
        exact ⟨(use fpr hfp).1, fun _ => (use fpr hfp).2⟩
      · have hb : bad_register_number T regno :=
          hbad.mpr ⟨h1, by simpa using h2, by simpa using h3⟩
        rw [hf, if_neg h1, if_neg h2, if_neg h3]
        refine ⟨?_, fun h => absurd hb h⟩
        intro c hc
        simp [issued] at hc

theorem fetch_inferior_registers_addresses (T : Target) (regno : Int) (w : World) :
    (∀ c ∈ issued w (fetch_inferior_registers T regno w).2,
        c.target = spec_target_id w.inferior_ptid)
    ∧ (¬ bad_register_number T regno →
        issued w (fetch_inferior_registers T regno w).2 ≠ []) := by
  rw [← resolved_tid_eq w]
  exact dispatch_addresses T regno w _ _ _ _ _
    (seq_addresses _ _ _ (fetch_regs_addresses T _) (fetch_fpregs_addresses T _))
    (fetch_regs_addresses T _) (fetch_fpregs_addresses T _)
    (fetch_inferior_registers T regno) rfl

theorem store_inferior_registers_addresses (T : Target) (regno : Int) (w : World) :
    (∀ c ∈ issued w (store_inferior_registers T regno w).2,
        c.target = spec_target_id w.inferior_ptid)
    ∧ (¬ bad_register_number T regno →
        issued w (store_inferior_registers T regno w).2 ≠ []) := by
  rw [← resolved_tid_eq w]
  exact dispatch_addresses T regno w _ _ _ _ _
    (seq_addresses _ _ _ (store_regs_addresses T _ _) (store_fpregs_addresses T _ _))
    (store_regs_addresses T _ _) (store_fpregs_addresses T _ _)
    (store_inferior_registers T regno) rfl

/-- C14: for every inferior id and register number, every `ptrace` request
that `fetch_inferior_registers` issues and every one that
`store_inferior_registers` issues is addressed to the same id: the thread
id when it is non-zero, the process id otherwise; and each issues at least
one request unless the register number is bad. -/
theorem thread_addressing_identical (T : Target) (w : World) (regno : Int) :
    (∀ c ∈ issued w (fetch_inferior_registers T regno w).2,
        c.target = (if w.inferior_ptid.tid ≠ 0 then w.inferior_ptid.tid
          else w.inferior_ptid.pid))
    ∧ (∀ c ∈ issued w (store_inferior_registers T regno w).2,
        c.target = (if w.inferior_ptid.tid ≠ 0 then w.inferior_ptid.tid
          else w.inferior_ptid.pid))
    ∧ (∀ c ∈ issued w (fetch_inferior_registers T regno w).2,
        ∀ d ∈ issued w (store_inferior_registers T regno w).2, c.target = d.target)
    ∧ (¬ bad_register_number T regno →
        issued w (fetch_inferior_registers T regno w).2 ≠ []
        ∧ issued w (store_inferior_registers T regno w).2 ≠ []) := by
  obtain ⟨f1, f2⟩ := fetch_inferior_registers_addresses T regno w
  obtain ⟨s1, s2⟩ := store_inferior_registers_addresses T regno w
  refine ⟨f1, s1, fun c hc d hd => ?_, fun h => ⟨f2 h, s2 h⟩⟩
  rw [f1 c hc, s1 d hd]

/-- On GNU/Linux, for process 7 without a distinct thread, the wildcard
fetch issues its two requests against 7; for thread 9 of process 7 the
store of register 3 issues its requests against 9. -/
theorem thread_addressing_identical_witness :
    (issued (sample_world ⟨7, 0⟩ (fun _ => 0) (fun _ => 0))
        (fetch_inferior_registers linux (-1)
          (sample_world ⟨7, 0⟩ (fun _ => 0) (fun _ => 0))).2).map PtraceCall.target
      = [7, 7]
    ∧ ∀ c ∈ issued (sample_world ⟨7, 9⟩ (fun _ => 0) (fun _ => 0))
        (store_inferior_registers linux 3
          (sample_world ⟨7, 9⟩ (fun _ => 0) (fun _ => 0))).2,
        c.target = 9 :=
  ⟨rfl,
   (thread_addressing_identical linux
      (sample_world ⟨7, 9⟩ (fun _ => 0) (fun _ => 0)) 3).2.1⟩

/-- C15: `fetch_regs (tid)` raises (through `perror_with_name`) exactly
when the get-general-registers request fails, and in that case GDB's
register array is left exactly as it was; when the request succeeds the
function returns normally. -/
theorem fetch_regs_failure_atomic (T : Target) (w : World) (tid : Int) :
    ((∃ e, (fetch_regs T tid w).1 = .error e)
      ↔ (ptrace_getregs tid w).1 = none)
    ∧ ((fetch_regs T tid w).1 = .error (.perror_with_name "Couldn't get registers")
      ↔ (ptrace_getregs tid w).1 = none)
    ∧ ((fetch_regs T tid w).1 = .ok () ↔ (ptrace_getregs tid w).1 ≠ none)
    ∧ ((ptrace_getregs tid w).1 = none →
        (fetch_regs T tid w).2.registers = w.registers
        ∧ issued w (fetch_regs T tid w).2 = [.PTRACE_GETREGS tid]) := by
  cases h : w.fails w.calls.length
  · have hg : (ptrace_getregs tid w).1 = some (w.kernel.gregs tid) := by
      simp [ptrace_getregs, World.next_fails, h]
    rw [fetch_regs_ok T tid w h, hg]
    exact ⟨⟨(fun ⟨_, hc⟩ => nomatch hc), fun hc => nomatch hc⟩,
      ⟨(fun hc => nomatch hc), fun hc => nomatch hc⟩,
      ⟨(fun _ hc => nomatch hc), fun _ => rfl⟩, fun hc => nomatch hc⟩
  · have hg : (ptrace_getregs tid w).1 = none := by
      simp [ptrace_getregs, World.next_fails, h]
    rw [fetch_regs_error T tid w h, hg]
    refine ⟨⟨fun _ => rfl, fun _ => ⟨_, rfl⟩⟩, ⟨fun _ => rfl, fun _ => rfl⟩,
      ⟨(fun hc => nomatch hc), fun hc => absurd rfl hc⟩, fun _ => ⟨rfl, ?_⟩⟩
    exact issued_append w _ _ rfl

/-- On GNU/Linux, when the get request fails, the fetch raises and slot 0
of the register array still holds the 42 it held before. -/
theorem fetch_regs_failure_atomic_witness :
    (fetch_regs linux 1
        { inferior_ptid := ⟨1, 0⟩
          registers := fun _ => 42
          kernel := {
            gregs := fun _ pos => 1000 + pos
            fpregs := fun _ _ => 0
            u_debugreg := fun _ _ => 0 }
          fails := fun _ => true
          calls := [] }).2.registers 0 = 42 :=
  congrFun
    ((fetch_regs_failure_atomic linux
      { inferior_ptid := ⟨1, 0⟩
        registers := fun _ => 42
        kernel := {
          gregs := fun _ pos => 1000 + pos
          fpregs := fun _ _ => 0
          u_debugreg := fun _ _ => 0 }
        fails := fun _ => true
        calls := [] } 1).2.2.2 rfl).1 0

/-- C16: `store_regs` and `store_fpregs` each issue exactly one get
request, and after it one set request exactly when the get succeeded; when
the get fails they raise with no set request issued and the kernel's
register sets unchanged. -/
theorem store_needs_baseline (T : Target) (w : World) (tid regno : Int) :
    (issued w (store_regs T tid regno w).2
        = if w.fails w.calls.length = true then [.PTRACE_GETREGS tid]
          else [.PTRACE_GETREGS tid,
            .PTRACE_SETREGS tid (fill_gregset T w.registers (w.kernel.gregs tid) regno)])
    ∧ (issued w (store_fpregs T tid regno w).2
        = if w.fails w.calls.length = true then [.PTRACE_GETFPREGS tid]
          else [.PTRACE_GETFPREGS tid,
            .PTRACE_SETFPREGS tid
              (fill_fpregset T w.registers (w.kernel.fpregs tid) regno)])
    ∧ ((ptrace_getregs tid w).1 = none →
        (store_regs T tid regno w).1
            = .error (.perror_with_name "Couldn't get registers")
        ∧ issued w (store_regs T tid regno w).2 = [.PTRACE_GETREGS tid]
        ∧ (store_regs T tid regno w).2.kernel.gregs = w.kernel.gregs
        ∧ (store_regs T tid regno w).2.kernel.fpregs = w.kernel.fpregs)
    ∧ ((ptrace_getfpregs tid w).1 = none →
        (store_fpregs T tid regno w).1
            = .error (.perror_with_name "Couldn't get floating point status")
        ∧ issued w (store_fpregs T tid regno w).2 = [.PTRACE_GETFPREGS tid]
        ∧ (store_fpregs T tid regno w).2.kernel.gregs = w.kernel.gregs
        ∧ (store_fpregs T tid regno w).2.kernel.fpregs = w.kernel.fpregs) := by
  cases h : w.fails w.calls.length
  · have hg : (ptrace_getregs tid w).1 = some (w.kernel.gregs tid) := by
      simp [ptrace_getregs, World.next_fails, h]
    have hf : (ptrace_getfpregs tid w).1 = some (w.kernel.fpregs tid) := by
      simp [ptrace_getfpregs, World.next_fails, h]
    rw [hg, hf]
    refine ⟨?_, ?_, (fun hc => nomatch hc), fun hc => nomatch hc⟩
    · rw [if_neg (by decide)]
      apply issued_append
      cases h1 : w.fails (w.calls.length + 1)
      · rw [store_regs_ok T tid regno w h h1]
      · rw [store_regs_set_error T tid regno w h h1]
    · rw [if_neg (by decide)]
      apply issued_append
      cases h1 : w.fails (w.calls.length + 1)
      · rw [store_fpregs_ok T tid regno w h h1]
      · rw [store_fpregs_set_error T tid regno w h h1]
  · rw [store_regs_get_error T tid regno w h, store_fpregs_get_error T tid regno w h]
    have e1 : issued w (w.issue (.PTRACE_GETREGS tid)) = [.PTRACE_GETREGS tid] :=
      issued_append w _ _ rfl
    have e2 : issued w (w.issue (.PTRACE_GETFPREGS tid)) = [.PTRACE_GETFPREGS tid] :=
      issued_append w _ _ rfl
    rw [if_pos rfl, if_pos rfl]
    exact ⟨e1, e2, fun _ => ⟨rfl, e1, rfl, rfl⟩, fun _ => ⟨rfl, e2, rfl, rfl⟩⟩

/-- On GNU/Linux, when the get request fails, storing register 3 raises
after that one request and word 10 of thread 1 still holds 1010. -/
theorem store_needs_baseline_witness :
    (store_regs linux 1 3
        { inferior_ptid := ⟨1, 0⟩
          registers := fun _ => 42
          kernel := {
            gregs := fun _ pos => 1000 + pos
            fpregs := fun _ _ => 0
            u_debugreg := fun _ _ => 0 }
          fails := fun _ => true
          calls := [] }).1 = .error (.perror_with_name "Couldn't get registers")
    ∧ (store_regs linux 1 3
        { inferior_ptid := ⟨1, 0⟩
          registers := fun _ => 42
          kernel := {
            gregs := fun _ pos => 1000 + pos
            fpregs := fun _ _ => 0
            u_debugreg := fun _ _ => 0 }
          fails := fun _ => true
          calls := [] }).2.kernel.gregs 1 10 = 1010 :=
  ⟨((store_needs_baseline linux
      { inferior_ptid := ⟨1, 0⟩
        registers := fun _ => 42
        kernel := {
          gregs := fun _ pos => 1000 + pos
          fpregs := fun _ _ => 0
          u_debugreg := fun _ _ => 0 }
        fails := fun _ => true
        calls := [] } 1 3).2.2.1 rfl).1,
   congrFun (congrFun
    ((store_needs_baseline linux
      { inferior_ptid := ⟨1, 0⟩
        registers := fun _ => 42
        kernel := {
          gregs := fun _ pos => 1000 + pos
          fpregs := fun _ _ => 0
          u_debugreg := fun _ _ => 0 }
        fails := fun _ => true
        calls := [] } 1 3).2.2.1 rfl).2.2.1 1) 10⟩

theorem dr_set_issued (regnum : Int) (value : Nat) (w : World) :
    issued w (x86_64_linux_dr_set regnum value w).2
      = [.PT_WRITE_U (PIDGET w.inferior_ptid) regnum value] := by
  apply issued_append
  cases h : w.fails w.calls.length
  · rw [dr_set_ok regnum value w h]
    rfl
  · rw [dr_set_error regnum value w h]
    rfl

theorem dr_get_issued (regnum : Int) (w : World) :
    issued w (x86_64_linux_dr_get regnum w).2
      = [.PT_READ_U (PIDGET w.inferior_ptid) regnum] := by
  apply issued_append
  cases h : w.fails w.calls.length
  · rw [dr_get_ok regnum w h]
    rfl
  · rw [dr_get_error regnum w h]
    rfl

theorem dr_set_frame (regnum : Int) (value : Nat) (w : World) (t slot : Int)
    (hslot : slot ≠ regnum) :
    (x86_64_linux_dr_set regnum value w).2.kernel.u_debugreg t slot
      = w.kernel.u_debugreg t slot := by
  cases h : w.fails w.calls.length
  · rw [dr_set_ok regnum value w h]
    show Function.update w.kernel.u_debugreg (PIDGET w.inferior_ptid)
        (Function.update (w.kernel.u_debugreg (PIDGET w.inferior_ptid)) regnum value) t slot
      = w.kernel.u_debugreg t slot
    by_cases ht : t = PIDGET w.inferior_ptid
    · subst ht
      rw [Function.update_same, Function.update_noteq hslot]
    · rw [Function.update_noteq ht]
  · rw [dr_set_error regnum value w h]
    rfl

/-- C17: on a target whose status and control slots lie outside the
comparator slots, for every valid comparator index `i` and address `A`,
`x86_64_linux_dr_set_addr (i, A)` and `x86_64_linux_dr_reset_addr (i)`
issue exactly one poke, at slot `DR_FIRSTADDR + i` (with `A`, respectively
0), which lies in `DR_FIRSTADDR .. DR_LASTADDR`; every other slot, in
particular `DR_STATUS` and `DR_CONTROL`, keeps its value. -/
theorem dr_addr_write_isolated (T : Target) (w : World) (i : Int) (A : Nat)
    (hlo : 0 ≤ i) (hhi : i ≤ T.DR_LASTADDR - T.DR_FIRSTADDR)
    (hstatus : ¬ (T.DR_FIRSTADDR ≤ T.DR_STATUS ∧ T.DR_STATUS ≤ T.DR_LASTADDR))
    (hcontrol : ¬ (T.DR_FIRSTADDR ≤ T.DR_CONTROL ∧ T.DR_CONTROL ≤ T.DR_LASTADDR)) :
    issued w (x86_64_linux_dr_set_addr T i A w).2
        = [.PT_WRITE_U (PIDGET w.inferior_ptid) (T.DR_FIRSTADDR + i) A]
    ∧ issued w (x86_64_linux_dr_reset_addr T i w).2
        = [.PT_WRITE_U (PIDGET w.inferior_ptid) (T.DR_FIRSTADDR + i) 0]
    ∧ (T.DR_FIRSTADDR ≤ T.DR_FIRSTADDR + i ∧ T.DR_FIRSTADDR + i ≤ T.DR_LASTADDR)
    ∧ (∀ t slot : Int, slot ≠ T.DR_FIRSTADDR + i →
        (x86_64_linux_dr_set_addr T i A w).2.kernel.u_debugreg t slot
            = w.kernel.u_debugreg t slot
        ∧ (x86_64_linux_dr_reset_addr T i w).2.kernel.u_debugreg t slot
            = w.kernel.u_debugreg t slot)
    ∧ (∀ t : Int,
        (x86_64_linux_dr_set_addr T i A w).2.kernel.u_debugreg t T.DR_STATUS
            = w.kernel.u_debugreg t T.DR_STATUS
        ∧ (x86_64_linux_dr_set_addr T i A w).2.kernel.u_debugreg t T.DR_CONTROL
            = w.kernel.u_debugreg t T.DR_CONTROL
        ∧ (x86_64_linux_dr_reset_addr T i w).2.kernel.u_debugreg t T.DR_STATUS
            = w.kernel.u_debugreg t T.DR_STATUS
        ∧ (x86_64_linux_dr_reset_addr T i w).2.kernel.u_debugreg t T.DR_CONTROL
            = w.kernel.u_debugreg t T.DR_CONTROL) := by
  rw [dr_set_addr_valid T i A w hlo hhi, dr_reset_addr_valid T i w hlo hhi]
  have hs : T.DR_STATUS ≠ T.DR_FIRSTADDR + i := by omega
  have hc : T.DR_CONTROL ≠ T.DR_FIRSTADDR + i := by omega
  refine ⟨dr_set_issued _ _ w, dr_set_issued _ _ w, ⟨by omega, by omega⟩,
    fun t slot hslot => ⟨dr_set_frame _ _ w t slot hslot, dr_set_frame _ _ w t slot hslot⟩,
    fun t => ⟨dr_set_frame _ _ w t _ hs, dr_set_frame _ _ w t _ hc,
      dr_set_frame _ _ w t _ hs, dr_set_frame _ _ w t _ hc⟩⟩

/-- On GNU/Linux, with every debug register of process 1 holding 5,
writing comparator 2 pokes slot 2 only and leaves the control slot 7 at 5. -/
theorem dr_addr_write_isolated_witness :
    issued
        { inferior_ptid := ⟨1, 0⟩
          registers := fun _ => 0
          kernel := {
            gregs := fun _ _ => 0
            fpregs := fun _ _ => 0
            u_debugreg := fun _ _ => 5 }
          fails := fun _ => false
          calls := [] }
        (x86_64_linux_dr_set_addr linux 2 0x1000
          { inferior_ptid := ⟨1, 0⟩
            registers := fun _ => 0
            kernel := {
              gregs := fun _ _ => 0
              fpregs := fun _ _ => 0
              u_debugreg := fun _ _ => 5 }
            fails := fun _ => false
            calls := [] }).2
      = [.PT_WRITE_U 1 2 0x1000]
    ∧ (x86_64_linux_dr_set_addr linux 2 0x1000
          { inferior_ptid := ⟨1, 0⟩
            registers := fun _ => 0
            kernel := {
              gregs := fun _ _ => 0
              fpregs := fun _ _ => 0
              u_debugreg := fun _ _ => 5 }
            fails := fun _ => false
            calls := [] }).2.kernel.u_debugreg 1 7 = 5 :=
  ⟨(dr_addr_write_isolated linux
      { inferior_ptid := ⟨1, 0⟩
        registers := fun _ => 0
        kernel := {
          gregs := fun _ _ => 0
          fpregs := fun _ _ => 0
          u_debugreg := fun _ _ => 5 }
        fails := fun _ => false
        calls := [] } 2 0x1000 (by decide) (by decide) (by decide) (by decide)).1,
   ((dr_addr_write_isolated linux
      { inferior_ptid := ⟨1, 0⟩
        registers := fun _ => 0
        kernel := {
          gregs := fun _ _ => 0
          fpregs := fun _ _ => 0
          u_debugreg := fun _ _ => 5 }
        fails := fun _ => false
        calls := [] } 2 0x1000 (by decide) (by decide) (by decide)
        (by decide)).2.2.2.2 1).2.1⟩

/-- C18: `x86_64_linux_dr_get` and `x86_64_linux_dr_set` issue exactly one
request each, a peek and a poke addressed to the process id whatever the
thread id is; so for an inferior id whose thread id is non-zero and
differs from its process id, every request of `fetch_inferior_registers`
and `store_inferior_registers` goes to the thread id, a different target
from the one the debug-register requests go to. -/
theorem dr_addresses_process (T : Target) (w : World) (regnum : Int) (value : Nat)
    (regno : Int) :
    issued w (x86_64_linux_dr_get regnum w).2
        = [.PT_READ_U w.inferior_ptid.pid regnum]
    ∧ issued w (x86_64_linux_dr_set regnum value w).2
        = [.PT_WRITE_U w.inferior_ptid.pid regnum value]
    ∧ (∀ d ∈ issued w (x86_64_linux_dr_get regnum w).2
          ++ issued w (x86_64_linux_dr_set regnum value w).2,
        d.target = w.inferior_ptid.pid)
    ∧ (w.inferior_ptid.tid ≠ 0 → w.inferior_ptid.tid ≠ w.inferior_ptid.pid →
        ∀ c ∈ issued w (fetch_inferior_registers T regno w).2
            ++ issued w (store_inferior_registers T regno w).2,
          c.target = w.inferior_ptid.tid
          ∧ ∀ d ∈ issued w (x86_64_linux_dr_get regnum w).2
              ++ issued w (x86_64_linux_dr_set regnum value w).2,
            c.target ≠ d.target) := by
  have hd : ∀ d ∈ issued w (x86_64_linux_dr_get regnum w).2
        ++ issued w (x86_64_linux_dr_set regnum value w).2,
      d.target = w.inferior_ptid.pid := by
    intro d hd
    rw [dr_get_issued, dr_set_issued] at hd
    simp only [List.singleton_append, List.mem_cons, List.mem_singleton,
      List.not_mem_nil, or_false] at hd
    rcases hd with rfl | rfl <;> rfl
  refine ⟨dr_get_issued regnum w, dr_set_issued regnum value w, hd, ?_⟩
  intro h0 hne c hc
  have hsp : spec_target_id w.inferior_ptid = w.inferior_ptid.tid := by
    unfold spec_target_id
    rw [if_pos h0]
  have hct : c.target = w.inferior_ptid.tid := by
    rcases List.mem_append.mp hc with h | h
    · rw [(fetch_inferior_registers_addresses T regno w).1 c h, hsp]
    · rw [(store_inferior_registers_addresses T regno w).1 c h, hsp]
  refine ⟨hct, fun d hdm => ?_⟩
  rw [hct, hd d hdm]
  exact hne

/-- On GNU/Linux, for thread 9 of process 7, the requests of the wildcard
fetch go to 9 while the debug-register peek goes to 7. -/
theorem dr_addresses_process_witness :
    (issued (sample_world ⟨7, 9⟩ (fun _ => 0) (fun _ => 0))
        (x86_64_linux_dr_get 6
          (sample_world ⟨7, 9⟩ (fun _ => 0) (fun _ => 0))).2).map PtraceCall.target = [7]
    ∧ ∀ c ∈ issued (sample_world ⟨7, 9⟩ (fun _ => 0) (fun _ => 0))
          (fetch_inferior_registers linux (-1)
            (sample_world ⟨7, 9⟩ (fun _ => 0) (fun _ => 0))).2
        ++ issued (sample_world ⟨7, 9⟩ (fun _ => 0) (fun _ => 0))
          (store_inferior_registers linux (-1)
            (sample_world ⟨7, 9⟩ (fun _ => 0) (fun _ => 0))).2,
        c.target = 9 :=
  ⟨congrArg (List.map PtraceCall.target)
      (dr_addresses_process linux (sample_world ⟨7, 9⟩ (fun _ => 0) (fun _ => 0))
        6 0 (-1)).1,
   fun c hc =>
    ((dr_addresses_process linux (sample_world ⟨7, 9⟩ (fun _ => 0) (fun _ => 0))
        6 0 (-1)).2.2.2 (by decide) (by decide) c hc).1⟩

end X86_64LinuxNat

/-! ## The legacy `misa` enumerator -/

namespace RiscvTdep

/-- C19: `RISCV_CSR_LEGACY_MISA_REGNUM` is the raw number 0xf10 = 3856; it
differs from 3921, the value `DECLARE_CSR` generates for hardware CSR
0xf10; it lies strictly inside the CSR range 65..4160; and the enumerators
after it do not continue from it: `RISCV_PRIV_REGNUM` and
`RISCV_LAST_REGNUM` are 4161 and `RISCV_NUM_REGS` is 4162. -/
theorem legacy_misa_is_raw_number :
    RISCV_CSR_LEGACY_MISA_REGNUM = 0xf10
    ∧ RISCV_CSR_LEGACY_MISA_REGNUM = 3856
    ∧ DECLARE_CSR 0xf10 = 3921
    ∧ RISCV_CSR_LEGACY_MISA_REGNUM ≠ DECLARE_CSR 0xf10
    ∧ (RISCV_FIRST_CSR_REGNUM < RISCV_CSR_LEGACY_MISA_REGNUM
        ∧ RISCV_CSR_LEGACY_MISA_REGNUM < RISCV_LAST_CSR_REGNUM)
    ∧ (RISCV_FIRST_CSR_REGNUM = 65 ∧ RISCV_LAST_CSR_REGNUM = 4160)
    ∧ RISCV_PRIV_REGNUM ≠ RISCV_CSR_LEGACY_MISA_REGNUM + 1
    ∧ RISCV_PRIV_REGNUM = 4161
    ∧ RISCV_LAST_REGNUM = 4161
    ∧ RISCV_NUM_REGS = 4162 := by
  refine ⟨rfl, rfl, rfl, by decide, ⟨by decide, by decide⟩, ⟨rfl, rfl⟩, by decide,
    rfl, rfl, rfl⟩

end RiscvTdep
